import Mathlib

/-!
Verification of the Requirements Analysis & Workflow Synthesis Pipeline.

This file gives a shallow embedding, in Lean 4, of the core pipeline of the
repository (requirement signal scoring, viewpoint selection, workflow
synthesis, enrichment passes) and proves or refutes the stated properties of
that pipeline.  JavaScript numbers are modelled by `ℚ` (the arithmetic in the
sources is exact decimal arithmetic), JS arrays by `List`, absent object
fields by `Option` or by the documented JS falsy defaults, and thrown
exceptions by `Except`.
-/

set_option maxHeartbeats 1000000

namespace WorkflowPipeline

/-- Truthiness of an optional JS string field: `undefined` and `""` are falsy. -/
def jsTruthy : Option String → Bool
  | none => false
  | some s => s ≠ ""

/-- JS `a || b` for an optional string: the fallback is used when `a` is falsy. -/
def jsOrStr (o : Option String) (d : String) : String :=
  match o with
  | none => d
  | some s => if s = "" then d else s

/-- Word characters of the JS `\b` boundary: ASCII letters, digits and
underscore. -/
def isWordChar (c : Char) : Bool :=
  c.isAlphanum || c = '_'

/-- ASCII lowercasing as performed by `toLowerCase` on the inputs involved. -/
def asciiLower (c : Char) : Char :=
  if 'A' ≤ c ∧ c ≤ 'Z' then Char.ofNat (c.toNat + 32) else c

/-- Lowercased character list of a string. -/
def lowerChars (s : String) : List Char :=
  s.data.map asciiLower

/-- Lowercased string. -/
def lowerStr (s : String) : String :=
  String.mk (lowerChars s)

/-- Plain substring occurrence (JS `String.includes`) on character lists. -/
def containsSub (cs w : List Char) : Bool :=
  match cs with
  | [] => w.isEmpty
  | c :: rest => w.isPrefixOf (c :: rest) || containsSub rest w

/-- JS `text.includes(sub)`. -/
def strContains (s sub : String) : Bool :=
  containsSub s.data sub.data

/-- Feature records as produced by the parsers: `{name, priority, complexity,
description, acceptanceCriteria}` (PRDParser feature extraction). -/
structure Feature where
  name : String := ""
  priority : Option String := none
  complexity : Option String := none
  description : Option String := none
  acceptanceCriteria : List String := []
deriving DecidableEq

/-- Requirements record, the normalized extraction result consumed by the
Signal Scorer and the personas (PRDParser.parseDescription output shape).
`complexity` is the parser-stored score (`analyzeComplexity`), `techSecurity`
models `technicalRequirements?.security`. -/
structure Requirements where
  title : String := ""
  features : List Feature := []
  components : List String := []
  integrations : List String := []
  userRoles : List String := []
  pages : List String := []
  domains : List String := []
  patterns : List String := []
  realtime : Bool := false
  security : Option String := none
  performance : Option String := none
  scalability : Option String := none
  timeline : Option String := none
  team : Option String := none
  techSecurity : Option String := none
  complexity : ℚ := 0
deriving DecidableEq

/-! ### Signal Scorer (src/core/WorkflowGenerator.js) -/

/-- WorkflowGenerator.calculateComplexity: weighted capped counts summed via
`reduce`, then flat modifiers, then `Math.min(score, 1)`. -/
def calculateComplexity (r : Requirements) : ℚ :=
  let factors : List ℚ :=
    [ ((min r.components.length 10 : ℕ) : ℚ) * 0.05,
      ((min r.integrations.length 5 : ℕ) : ℚ) * 0.1,
      ((min r.userRoles.length 5 : ℕ) : ℚ) * 0.05,
      ((min r.features.length 20 : ℕ) : ℚ) * 0.03,
      ((min r.pages.length 15 : ℕ) : ℚ) * 0.02 ]
  let score := factors.foldl (· + ·) 0
  let score := if r.realtime then score + 0.2 else score
  let score := if r.security = some "high" then score + 0.15 else score
  let score := if r.performance = some "critical" then score + 0.1 else score
  let score := if r.scalability = some "enterprise" then score + 0.15 else score
  min score 1

/-- Complexity as the specification states it: one weighted sum with flat
additions, clamped to the interval [0,1]. -/
def specComplexity (r : Requirements) : ℚ :=
  let weighted : ℚ :=
    ((min r.components.length 10 : ℕ) : ℚ) * 0.05
    + ((min r.integrations.length 5 : ℕ) : ℚ) * 0.1
    + ((min r.userRoles.length 5 : ℕ) : ℚ) * 0.05
    + ((min r.features.length 20 : ℕ) : ℚ) * 0.03
    + ((min r.pages.length 15 : ℕ) : ℚ) * 0.02
    + (if r.realtime then 0.2 else 0)
    + (if r.security = some "high" then 0.15 else 0)
    + (if r.performance = some "critical" then 0.1 else 0)
    + (if r.scalability = some "enterprise" then 0.15 else 0)
  max 0 (min weighted 1)

/-- WorkflowGenerator.assessInitialRisk: five boolean indicators, thresholds
5 (high) and 3 (medium). -/
def assessInitialRisk (r : Requirements) : String :=
  let riskScore : ℕ := 0
  let riskScore := if r.complexity > 0.7 then riskScore + 2 else riskScore
  let riskScore := if r.integrations.length > 3 then riskScore + 2 else riskScore
  let riskScore := if r.security = some "high" then riskScore + 1 else riskScore
  let riskScore := if r.timeline = some "tight" then riskScore + 2 else riskScore
  let riskScore := if r.team = some "small" then riskScore + 1 else riskScore
  if riskScore ≥ 5 then "high" else if riskScore ≥ 3 then "medium" else "low"

/-- Modelled from the claim: the risk level allegedly computed from the four
indicators complexity>0.7 (+2), integrations>3 (+2), high security (+1),
features>10 (+1) with thresholds 4 (high) and 2 (medium). -/
def claimInitialRisk (r : Requirements) : String :=
  let pts : ℕ :=
    (if r.complexity > 0.7 then 2 else 0)
    + (if r.integrations.length > 3 then 2 else 0)
    + (if r.security = some "high" then 1 else 0)
    + (if r.features.length > 10 then 1 else 0)
  if pts ≥ 4 then "high" else if pts ≥ 2 then "medium" else "low"

/-- Initial risk as the code actually computes it, restated as a sum of
indicator points mapped through the thresholds 5 (high) and 3 (medium). -/
def actualInitialRisk (r : Requirements) : String :=
  let pts : ℕ :=
    ([ (if r.complexity > 0.7 then 2 else 0),
       (if r.integrations.length > 3 then 2 else 0),
       (if r.security = some "high" then 1 else 0),
       (if r.timeline = some "tight" then 2 else 0),
       (if r.team = some "small" then 1 else 0) ] : List ℕ).sum
  if pts ≥ 5 then "high" else if pts ≥ 3 then "medium" else "low"

/-- BasePersona.assessRiskLevel (workflow metadata risk): the four-indicator
scheme with thresholds 4 (high) and 2 (medium). -/
def assessRiskLevel (r : Requirements) : String :=
  let riskScore : ℕ := 0
  let riskScore := if r.complexity > 0.7 then riskScore + 2 else riskScore
  let riskScore := if r.integrations.length > 3 then riskScore + 2 else riskScore
  let riskScore := if jsTruthy r.techSecurity then riskScore + 1 else riskScore
  let riskScore := if r.features.length > 10 then riskScore + 1 else riskScore
  if riskScore ≥ 4 then "high" else if riskScore ≥ 2 then "medium" else "low"

/-- WorkflowGenerator.estimateDuration: `ceil((2 + 0.5*components +
0.3*features + 1*integrations) * (1 + calculateComplexity r))` weeks. -/
def estimateDuration (r : Requirements) : ℕ :=
  let baseWeeks : ℚ := 2
  let baseWeeks := baseWeeks + (r.components.length : ℚ) * 0.5
  let baseWeeks := baseWeeks + (r.features.length : ℚ) * 0.3
  let baseWeeks := baseWeeks + (r.integrations.length : ℚ) * 1
  let baseWeeks := baseWeeks * (1 + calculateComplexity r)
  ⌈baseWeeks⌉₊

/-- Modelled from the claim: duration allegedly
`ceil((2 + 0.5*features + 1*integrations) * (1 + complexity))`. -/
def claimDuration (r : Requirements) : ℕ :=
  ⌈(2 + (r.features.length : ℚ) * 0.5 + (r.integrations.length : ℚ) * 1)
    * (1 + calculateComplexity r)⌉₊

/-- Duration as the code actually computes it, restated as a single linear
model with coefficients 0.5 per component, 0.3 per feature and 1 per
integration, multiplied by one plus the computed complexity. -/
def actualDuration (r : Requirements) : ℕ :=
  ⌈(2 + (r.components.length : ℚ) * 0.5 + (r.features.length : ℚ) * 0.3
      + (r.integrations.length : ℚ) * 1) * (1 + calculateComplexity r)⌉₊

/-! ### Viewpoint selection (src/core/WorkflowGenerator.js, PersonaFactory.js) -/

/-- Catalog keys of the six personas registered in the PersonaFactory map, in
registration order. -/
def personaCatalog : List String :=
  ["architect", "frontend", "backend", "security", "devops", "qa"]

/-- PersonaFactory.create: lowercases the requested type, looks it up in the
catalog and throws `Unknown persona type` when the lookup fails.  The persona
instance is represented by its type tag. -/
def PersonaFactory.create (t : String) : Except String String :=
  if personaCatalog.contains (lowerStr t) then .ok (lowerStr t)
  else .error ("Unknown persona type: " ++ t)

/-- PersonaFactory.hasType: membership of the lowercased type in the catalog. -/
def PersonaFactory.hasType (t : String) : Bool :=
  personaCatalog.contains (lowerStr t)

/-- WorkflowGenerator.autoDetectPersona: the fixed precedence chain over
domain/pattern membership, with architect as the multi-domain/high-complexity
case and as the default fallback. -/
def autoDetectPersona (domains patterns : List String) (complexity : ℚ) : String :=
  if domains.contains "frontend" || patterns.contains "ui-component"
      || patterns.contains "responsive" then "frontend"
  else if domains.contains "backend" || patterns.contains "api"
      || patterns.contains "database" then "backend"
  else if domains.contains "security" || patterns.contains "authentication"
      || patterns.contains "encryption" then "security"
  else if domains.contains "infrastructure" || patterns.contains "deployment"
      || patterns.contains "ci-cd" then "devops"
  else if domains.length > 2 || complexity > 0.8 then "architect"
  else "architect"

/-- WorkflowGenerator.selectPersona: an explicit persona option other than
`auto` goes through the factory, otherwise the auto-detected type does. -/
def selectPersona (domains patterns : List String) (complexity : ℚ)
    (personaOption : String) : Except String String :=
  if personaOption ≠ "auto" then PersonaFactory.create personaOption
  else PersonaFactory.create (autoDetectPersona domains patterns complexity)

/-! ### Agile workflow: epics, user stories, sprint packing (BasePersona) -/

/-- User story record built by BasePersona.createUserStories. -/
structure Story where
  title : String := ""
  description : String := ""
  acceptanceCriteria : List String := []
  storyPoints : ℕ := 0
deriving DecidableEq

/-- Epic record built by BasePersona.convertToEpics. -/
structure Epic where
  name : String := ""
  description : Option String := none
  userStories : List Story := []
  acceptanceCriteria : List String := []
deriving DecidableEq

/-- Sprint accumulator used by BasePersona.organizeSprints. -/
structure Sprint where
  userStories : List Story := []
  totalPoints : ℕ := 0
deriving DecidableEq

/-- BasePersona.estimateStoryPoints: 8 / 5 / 3 by feature complexity, 5 by
default. -/
def estimateStoryPoints (f : Feature) : ℕ :=
  if f.complexity = some "high" then 8
  else if f.complexity = some "medium" then 5
  else if f.complexity = some "low" then 3
  else 5

/-- BasePersona.createUserStories: one story per feature. -/
def createUserStories (f : Feature) : List Story :=
  [{ title := "User can " ++ f.name,
     description := jsOrStr f.description ("As a user, I want to " ++ f.name),
     acceptanceCriteria := f.acceptanceCriteria,
     storyPoints := estimateStoryPoints f }]

/-- BasePersona.convertToEpics: one epic per feature, in feature order. -/
def convertToEpics (r : Requirements) : List Epic :=
  r.features.map fun f =>
    { name := f.name,
      description := f.description,
      userStories := createUserStories f,
      acceptanceCriteria := f.acceptanceCriteria }

/-- Processing of a single story inside the organizeSprints loop: close the
current sprint (discarding it when empty) when the story does not fit, then
append the story to the current sprint. -/
def sprintStep (st : List Sprint × Sprint) (story : Story) : List Sprint × Sprint :=
  let (sprints, cur) := st
  let (sprints, cur) :=
    if cur.totalPoints + story.storyPoints > 20 then
      (if cur.userStories.length > 0 then sprints ++ [cur] else sprints,
       ({} : Sprint))
    else (sprints, cur)
  (sprints,
   { userStories := cur.userStories ++ [story],
     totalPoints := cur.totalPoints + story.storyPoints })

/-- BasePersona.organizeSprints: the nested for-loops over epics and their
stories with capacity 20 per sprint, flushing the trailing sprint when
nonempty. -/
def organizeSprints (epics : List Epic) : List Sprint :=
  let st := epics.foldl (fun st epic => epic.userStories.foldl sprintStep st)
    (([], {}) : List Sprint × Sprint)
  if st.2.userStories.length > 0 then st.1 ++ [st.2] else st.1

/-! ### Keyword extraction with word boundaries (src/parsers/PRDParser.js)

The parser tests fixed alternations `\b(w1|w2|...)\b` against the lowercased
input.  Every alternative used by the parser begins and ends with a word
character, so the test succeeds exactly when the alternative occurs in the
text with no word character adjacent on either side.  The matcher below
implements that semantics on character lists. -/

/-- Occurrence of `w` in `cs` such that the character before the occurrence
(`prev` at the start) and the character after it are not word characters. -/
def wbSearch (prev : Option Char) (cs : List Char) (w : List Char) : Bool :=
  match cs with
  | [] => false
  | c :: rest =>
    ((!(prev.elim false isWordChar))
      && w.isPrefixOf (c :: rest)
      && !(((c :: rest).drop w.length).head?.elim false isWordChar))
    || wbSearch (some c) rest w

/-- Test of the alternation `\b(w1|...|wn)\b` against a lowercased text. -/
def testWords (text : String) (ws : List String) : Bool :=
  ws.any fun w => wbSearch none (lowerChars text) w.data

/-- PRDParser.extractDomains: the five domain indicator alternations, results
in insertion order. -/
def extractDomains (text : String) : List String :=
  (if testWords text ["ui", "ux", "frontend", "react", "vue", "angular",
      "component", "responsive", "css", "html", "javascript"]
    then ["frontend"] else [])
  ++ (if testWords text ["api", "backend", "server", "database", "node",
      "python", "java", "sql", "nosql", "rest", "graphql"]
    then ["backend"] else [])
  ++ (if testWords text ["security", "auth", "encryption", "token", "oauth",
      "ssl", "https", "privacy", "gdpr"]
    then ["security"] else [])
  ++ (if testWords text ["deploy", "infrastructure", "cloud", "aws", "docker",
      "kubernetes", "ci/cd", "devops"]
    then ["infrastructure"] else [])
  ++ (if testWords text ["mobile", "ios", "android", "react native", "flutter",
      "responsive"]
    then ["mobile"] else [])

/-- Pattern map of PRDParser.extractPatterns, in source order. -/
def patternMap : List (String × List String) :=
  [ ("ui-component", ["component", "widget", "element", "button", "form",
      "input", "modal"]),
    ("api", ["api", "endpoint", "rest", "graphql", "service"]),
    ("database", ["database", "db", "sql", "nosql", "mongo", "postgres",
      "mysql"]),
    ("authentication", ["auth", "login", "register", "signin", "signup",
      "oauth", "jwt"]),
    ("realtime", ["realtime", "real-time", "websocket", "socket", "live",
      "streaming"]),
    ("responsive", ["responsive", "mobile", "tablet", "desktop", "adaptive"]),
    ("testing", ["test", "testing", "unit", "integration", "e2e", "spec"]),
    ("deployment", ["deploy", "deployment", "ci/cd", "pipeline", "build"]),
    ("performance", ["performance", "optimization", "cache", "caching",
      "speed"]),
    ("security", ["security", "secure", "encryption", "ssl", "https",
      "privacy"]) ]

/-- PRDParser.extractPatterns: the names of the matching map entries, in map
order. -/
def extractPatterns (text : String) : List String :=
  (patternMap.filter fun p => testWords text p.2).map (·.1)

/-- Input text of Scenario B. -/
def scenarioBText : String :=
  "Implement REST API with authentication and PostgreSQL database integration"

/-- Concrete record refuting C3: stored complexity 0.8 and eleven features,
nothing else. -/
def riskCounterexample : Requirements :=
  { complexity := 0.8, features := List.replicate 11 ({ name := "f" } : Feature) }

/-- Concrete record refuting C4: exactly two features, nothing else. -/
def durationCounterexample : Requirements :=
  { features := [{ name := "a" }, { name := "b" }] }

/-! ### Workflow data model (synthesized plan) -/

/-- Task record of a synthesized phase.  Fields absent on a JS task object are
the empty string, the empty list or `none`. -/
structure Task where
  type : String := ""
  title : String := ""
  description : String := ""
  deliverables : List String := []
  tools : List String := []
  priority : Option String := none
  dependencies : List String := []
  estimatedHours : Option ℕ := none
  storyPoints : Option ℕ := none
  acceptanceCriteria : List String := []
  critical : Bool := false
deriving DecidableEq

/-- Phase record of a synthesized workflow. -/
structure Phase where
  name : String := ""
  type : String := ""
  duration : String := ""
  tasks : List Task := []
deriving DecidableEq

instance : Inhabited Phase := ⟨{}⟩

/-- Workflow metadata attached by BasePersona.generateWorkflow. -/
structure WorkflowMetadata where
  estimatedDuration : String := ""
  complexity : ℚ := 0
  riskLevel : String := ""
deriving DecidableEq

/-! ### Substring scanning helpers

The enrichment passes and the backend service extractor scan
`JSON.stringify(...)` of a record for keyword substrings (`String.includes`,
no word boundaries). -/

/-- Flattened text of a Requirements record, modelling `JSON.stringify` for
the purpose of substring scans: the serialized key names and the string
values, in record order. -/
def reqText (r : Requirements) : String :=
  String.intercalate " " (
    ["title", r.title, "features"]
    ++ (r.features.map fun f =>
        ["name", f.name, "priority", f.priority.getD "", "complexity",
         f.complexity.getD "", "description", f.description.getD "",
         "acceptanceCriteria"] ++ f.acceptanceCriteria).flatten
    ++ ["components"] ++ r.components
    ++ ["integrations"] ++ r.integrations
    ++ ["userRoles"] ++ r.userRoles
    ++ ["pages"] ++ r.pages
    ++ ["domains"] ++ r.domains
    ++ ["patterns"] ++ r.patterns
    ++ ["realtime", "security", r.security.getD "",
        "performance", r.performance.getD "",
        "scalability", r.scalability.getD "",
        "timeline", r.timeline.getD "", "team", r.team.getD "",
        "technicalRequirements", r.techSecurity.getD "", "complexity"])

/-- Service noun catalog scanned by BackendPersona.extractServices. -/
def servicePatternCatalog : List String :=
  ["user", "auth", "payment", "order", "product", "inventory",
   "notification", "email", "file", "image", "search", "analytics",
   "report", "admin", "customer", "billing", "subscription"]

/-- Global replacement of the alternation `service|api` by the empty string
(JS `replace(/service|api/g, '')`). -/
def stripServiceApi : List Char → List Char
  | [] => []
  | c :: rest =>
    if "service".data.isPrefixOf (c :: rest) then
      stripServiceApi (rest.drop 6)
    else if "api".data.isPrefixOf (c :: rest) then
      stripServiceApi (rest.drop 2)
    else c :: stripServiceApi rest
termination_by cs => cs.length
decreasing_by
  · simp only [List.length_cons]
    have := List.length_drop 6 rest
    omega
  · simp only [List.length_cons]
    have := List.length_drop 2 rest
    omega
  · simp [List.length_cons]

/-- Insertion into a JS `Set` modelled as an order-preserving deduplicating
append. -/
def setAdd (l : List String) (x : String) : List String :=
  if l.contains x then l else l ++ [x]

/-- BackendPersona.extractServices: service nouns found in the serialized
requirements, then stripped names of features containing `service` or
`api`. -/
def extractServices (r : Requirements) : List String :=
  let text := lowerStr (reqText r)
  let services := servicePatternCatalog.foldl
    (fun acc p => if strContains text p then setAdd acc p else acc) []
  r.features.foldl
    (fun acc f =>
      let featureName := lowerStr f.name
      if strContains featureName "service" || strContains featureName "api" then
        setAdd acc (String.mk (stripServiceApi featureName.data)).trim
      else acc)
    services

/-- BackendPersona.estimateServiceHours. -/
def estimateServiceHours (service : String) : ℕ :=
  if ["payment", "auth", "search", "analytics", "notification"].contains
      (lowerStr service) then 16
  else if ["user", "product", "file", "image"].contains (lowerStr service) then 8
  else 12

/-! ### BackendPersona systematic phase builders -/

/-- BackendPersona.createAPIDesignPhase. -/
def createAPIDesignPhase (_r : Requirements) : Option Phase :=
  some
  { name := "API Design & Specification", type := "api-design",
    duration := "1-2 weeks",
    tasks :=
    [ { type := "design", title := "API specification design",
        description := "Design RESTful API endpoints and data contracts",
        deliverables := ["OpenAPI specification", "API documentation"],
        tools := ["OpenAPI", "Swagger", "Postman"], estimatedHours := some 12 },
      { type := "design", title := "Data model design",
        description := "Design request/response schemas and validation rules",
        deliverables := ["Data schemas", "Validation specifications"],
        estimatedHours := some 8 },
      { type := "design", title := "Authentication & authorization design",
        description := "Design API security and access control mechanisms",
        deliverables := ["Auth specification", "Security policies"],
        tools := ["JWT", "OAuth 2.0", "API Keys"], estimatedHours := some 10 },
      { type := "design", title := "Error handling design",
        description := "Design consistent error responses and status codes",
        deliverables := ["Error handling specification", "Status code mapping"],
        estimatedHours := some 4 },
      { type := "design", title := "Rate limiting & throttling design",
        description := "Design API rate limiting and abuse protection",
        deliverables := ["Rate limiting specification", "Throttling policies"],
        estimatedHours := some 3 } ] }

/-- BackendPersona.createDatabaseDesignPhase. -/
def createDatabaseDesignPhase (_r : Requirements) : Option Phase :=
  some
  { name := "Database Design & Architecture", type := "database",
    duration := "1-2 weeks",
    tasks :=
    [ { type := "design", title := "Database schema design",
        description := "Design normalized database schema and relationships",
        deliverables := ["Database schema", "Entity relationship diagram"],
        tools := ["PostgreSQL", "MySQL", "MongoDB"], estimatedHours := some 16 },
      { type := "design", title := "Data migration strategy",
        description := "Design data migration and versioning strategy",
        deliverables := ["Migration scripts", "Version control strategy"],
        estimatedHours := some 6 },
      { type := "design", title := "Database performance optimization",
        description := "Design indexing strategy and query optimization",
        deliverables := ["Index strategy", "Query optimization plan"],
        estimatedHours := some 8 },
      { type := "design", title := "Backup & recovery strategy",
        description := "Design backup, recovery, and disaster recovery procedures",
        deliverables := ["Backup strategy", "Recovery procedures"],
        estimatedHours := some 4 },
      { type := "implement", title := "Database setup & configuration",
        description := "Set up database infrastructure and configurations",
        deliverables := ["Database infrastructure", "Configuration files"],
        estimatedHours := some 5 } ] }

/-- BackendPersona.createSecurityImplementationPhase. -/
def createSecurityImplementationPhase (_r : Requirements) : Option Phase :=
  some
  { name := "Security Implementation", type := "security",
    duration := "1-2 weeks",
    tasks :=
    [ { type := "implement", title := "Authentication system implementation",
        description := "Implement user authentication and session management",
        deliverables := ["Authentication service", "Session management"],
        tools := ["Passport.js", "bcrypt", "JWT"], estimatedHours := some 12 },
      { type := "implement", title := "Authorization & access control",
        description := "Implement role-based access control and permissions",
        deliverables := ["Authorization middleware", "Permission system"],
        estimatedHours := some 10 },
      { type := "implement", title := "Input validation & sanitization",
        description := "Implement comprehensive input validation and sanitization",
        deliverables := ["Validation middleware", "Sanitization functions"],
        tools := ["Joi", "express-validator", "DOMPurify"],
        estimatedHours := some 8 },
      { type := "implement", title := "Security headers & middleware",
        description := "Implement security headers and protective middleware",
        deliverables := ["Security middleware", "Headers configuration"],
        tools := ["helmet", "cors", "express-rate-limit"],
        estimatedHours := some 4 },
      { type := "implement", title := "Encryption & data protection",
        description := "Implement data encryption and secure storage",
        deliverables := ["Encryption utilities", "Secure storage"],
        tools := ["crypto", "bcrypt", "node-forge"],
        estimatedHours := some 6 } ] }

/-- BackendPersona.createServiceImplementationPhase. -/
def createServiceImplementationPhase (r : Requirements) : Option Phase :=
  let services := extractServices r
  some
  { name := "Service Implementation", type := "implementation",
    duration := "2-4 weeks",
    tasks :=
    [ { type := "setup", title := "Project structure & dependencies",
        description := "Set up project structure and install dependencies",
        deliverables := ["Project structure", "Package configuration"],
        estimatedHours := some 4 },
      { type := "implement", title := "Core service layer implementation",
        description := "Implement business logic and service layer",
        deliverables := ["Service classes", "Business logic"],
        estimatedHours := some 20 },
      { type := "implement", title := "Data access layer implementation",
        description := "Implement database repositories and data access",
        deliverables := ["Repository pattern", "Data access layer"],
        tools := ["Sequelize", "TypeORM", "Mongoose"],
        estimatedHours := some 16 } ]
    ++ ((services.take 5).map fun service =>
      { type := "implement", title := "Implement " ++ service ++ " service",
        description := "Implement " ++ service
          ++ " service with full CRUD operations",
        deliverables := [service ++ " service", "API endpoints", "Unit tests"],
        estimatedHours := some (estimateServiceHours service) })
    ++ [ { type := "implement", title := "Error handling & logging",
           description := "Implement centralized error handling and logging",
           deliverables := ["Error middleware", "Logging system"],
           tools := ["winston", "morgan", "sentry"],
           estimatedHours := some 6 } ] }

/-- BackendPersona.createIntegrationPhase: `null` when there are no
integrations. -/
def createIntegrationPhase (r : Requirements) : Option Phase :=
  let integrations := r.integrations
  if integrations.length = 0 then none
  else some
  { name := "External Integrations", type := "integration",
    duration := "1-2 weeks",
    tasks :=
    [ { type := "design", title := "Integration architecture design",
        description := "Design integration patterns and error handling",
        deliverables := ["Integration architecture", "Error handling strategy"],
        estimatedHours := some 6 } ]
    ++ ((integrations.take 3).map fun integration =>
      { type := "implement",
        title := "Implement " ++ integration ++ " integration",
        description := "Integrate with " ++ integration ++ " service",
        deliverables := [integration ++ " client", "Integration tests"],
        estimatedHours := some 8 })
    ++ [ { type := "implement", title := "Circuit breaker implementation",
           description := "Implement circuit breaker pattern for external services",
           deliverables := ["Circuit breaker middleware", "Fallback mechanisms"],
           tools := ["node-circuit-breaker"], estimatedHours := some 4 } ] }

/-- BackendPersona.createPerformanceOptimizationPhase. -/
def createPerformanceOptimizationPhase (_r : Requirements) : Option Phase :=
  some
  { name := "Performance Optimization", type := "performance",
    duration := "1 week",
    tasks :=
    [ { type := "implement", title := "Caching implementation",
        description := "Implement multi-level caching strategy",
        deliverables := ["Caching layer", "Cache invalidation"],
        tools := ["Redis", "node-cache", "memcached"], estimatedHours := some 8 },
      { type := "optimize", title := "Database query optimization",
        description := "Optimize database queries and add proper indexing",
        deliverables := ["Optimized queries", "Database indexes"],
        estimatedHours := some 6 },
      { type := "implement", title := "Connection pooling",
        description := "Implement database connection pooling",
        deliverables := ["Connection pool configuration"],
        estimatedHours := some 2 },
      { type := "implement", title := "Response compression",
        description := "Implement response compression and optimization",
        deliverables := ["Compression middleware"],
        tools := ["compression", "gzip"], estimatedHours := some 2 },
      { type := "test", title := "Performance testing",
        description := "Conduct load testing and performance benchmarking",
        deliverables := ["Performance test results", "Benchmarks"],
        tools := ["Artillery", "k6", "Apache Bench"], estimatedHours := some 4 } ] }

/-- BackendPersona.createMonitoringPhase. -/
def createMonitoringPhase (_r : Requirements) : Option Phase :=
  some
  { name := "Monitoring & Observability", type := "monitoring",
    duration := "3-5 days",
    tasks :=
    [ { type := "implement", title := "Application monitoring setup",
        description := "Set up application performance monitoring",
        deliverables := ["APM configuration", "Performance dashboards"],
        tools := ["New Relic", "DataDog", "AppDynamics"],
        estimatedHours := some 4 },
      { type := "implement", title := "Health check endpoints",
        description := "Implement health check and status endpoints",
        deliverables := ["Health check endpoints", "Status monitoring"],
        estimatedHours := some 3 },
      { type := "implement", title := "Structured logging implementation",
        description := "Implement structured logging with correlation IDs",
        deliverables := ["Logging configuration", "Log aggregation"],
        tools := ["winston", "bunyan", "ELK stack"], estimatedHours := some 5 },
      { type := "implement", title := "Alerting & notifications",
        description := "Set up alerting for critical issues and performance thresholds",
        deliverables := ["Alert configuration", "Notification setup"],
        tools := ["PagerDuty", "Slack", "Email"], estimatedHours := some 3 } ] }

/-- BackendPersona.createDeploymentPhase. -/
def createDeploymentPhase (_r : Requirements) : Option Phase :=
  some
  { name := "Deployment & Infrastructure", type := "deployment",
    duration := "1 week",
    tasks :=
    [ { type := "setup", title := "Environment configuration",
        description := "Configure development, staging, and production environments",
        deliverables := ["Environment configs", "Infrastructure as code"],
        tools := ["Docker", "Terraform", "Ansible"], estimatedHours := some 8 },
      { type := "implement", title := "CI/CD pipeline setup",
        description := "Set up continuous integration and deployment pipeline",
        deliverables := ["CI/CD pipeline", "Automated deployment"],
        tools := ["GitHub Actions", "Jenkins", "GitLab CI"],
        estimatedHours := some 6 },
      { type := "implement", title := "Database deployment strategy",
        description := "Implement database migration and deployment strategy",
        deliverables := ["Migration scripts", "Deployment procedures"],
        estimatedHours := some 4 },
      { type := "setup", title := "Production deployment",
        description := "Deploy application to production environment",
        deliverables := ["Production deployment", "Rollback procedures"],
        estimatedHours := some 3 } ] }

/-- Filtering applied by every persona's generateSystematicWorkflow:
`filter(phase => phase && phase.tasks.length > 0)`. -/
def filterPhases (cands : List (Option Phase)) : List Phase :=
  (cands.filterMap id).filter fun p => p.tasks.length > 0

/-- BackendPersona.generateSystematicWorkflow: eight builders, filtered. -/
def backendSystematicPhases (r : Requirements) : List Phase :=
  filterPhases
    [ createAPIDesignPhase r,
      createDatabaseDesignPhase r,
      createSecurityImplementationPhase r,
      createServiceImplementationPhase r,
      createIntegrationPhase r,
      createPerformanceOptimizationPhase r,
      createMonitoringPhase r,
      createDeploymentPhase r ]

/-- Sprint phases of BasePersona.generateAgileWorkflow. -/
def generateAgileWorkflow (r : Requirements) : List Phase :=
  (organizeSprints (convertToEpics r)).enum.map fun p =>
    { name := "Sprint " ++ toString (p.1 + 1), type := "sprint",
      duration := "2 weeks",
      tasks := p.2.userStories.map fun story =>
        { type := "user-story", title := story.title,
          description := story.description,
          acceptanceCriteria := story.acceptanceCriteria,
          storyPoints := some story.storyPoints } }

/-- BasePersona.identifyCoreFeatures: high/critical priority features, at most
five. -/
def identifyCoreFeatures (r : Requirements) : List Feature :=
  (r.features.filter fun f =>
    f.priority = some "high" || f.priority = some "critical").take 5

/-- BasePersona.generateMVPWorkflow: three fixed phases; the Rapid Development
tasks are mapped from the core features with no empty-filter. -/
def generateMVPWorkflow (r : Requirements) : List Phase :=
  let coreFeatures := identifyCoreFeatures r
  [ { name := "MVP Definition", type := "planning",
      tasks :=
      [ { type := "analysis", title := "Define MVP scope",
          description := "Identify minimum viable features for initial release" },
        { type := "design", title := "Create MVP wireframes",
          description := "Design core user flows and interfaces" } ] },
    { name := "Rapid Development", type := "implementation",
      tasks := coreFeatures.map fun feature =>
        { type := "implement", title := "Implement " ++ feature.name,
          description := feature.description.getD "",
          priority := some "high" } },
    { name := "MVP Validation", type := "validation",
      tasks :=
      [ { type := "test", title := "User acceptance testing",
          description := "Validate core functionality with target users" },
        { type := "deploy", title := "MVP deployment",
          description := "Deploy MVP to production environment" } ] } ]

/-- BasePersona.estimateProjectDuration: ceil of the feature-scaled weeks,
rendered as weeks up to 4, months above. -/
def estimateProjectDuration (r : Requirements) : String :=
  let baseWeeks : ℚ := 2
  let featureCount : ℚ := r.features.length
  let complexity : ℚ := if r.complexity = 0 then 0.5 else r.complexity
  let estimatedWeeks : ℕ := ⌈baseWeeks + featureCount * 0.5 * (1 + complexity)⌉₊
  if estimatedWeeks ≤ 4 then toString estimatedWeeks ++ " weeks"
  else
    let months : ℕ := ⌈(estimatedWeeks : ℚ) / 4⌉₊
    toString months ++ " month" ++ (if months > 1 then "s" else "")

/-! ### Enrichment output records -/

/-- Dependency record pushed by the DependencyAnalyzer; kinds not setting a
field leave its default. -/
structure DepRecord where
  name : String := ""
  type : String := ""
  critical : Bool := false
  description : String := ""
  riskLevel : String := ""
  version : String := ""
deriving DecidableEq

/-- Critical-path entry of the DependencyAnalyzer. -/
structure CriticalPathEntry where
  phase : String := ""
  tasks : List String := []
  duration : String := ""
deriving DecidableEq

/-- Bottleneck record of the DependencyAnalyzer. -/
structure Bottleneck where
  type : String := ""
  location : String := ""
  description : String := ""
  recommendation : String := ""
deriving DecidableEq

/-- Result object of DependencyAnalyzer.analyze. -/
structure DependencyOutput where
  internal : List DepRecord := []
  external : List DepRecord := []
  technical : List DepRecord := []
  team : List DepRecord := []
  infrastructure : List DepRecord := []
  criticalPath : List CriticalPathEntry := []
  bottlenecks : List Bottleneck := []
deriving DecidableEq

/-- Risk record pushed by the RiskAssessment rules. -/
structure Risk where
  name : String := ""
  category : String := ""
  probability : String := ""
  impact : String := ""
  description : String := ""
  indicators : List String := []
  mitigation : String := ""
deriving DecidableEq

/-- Risk summary of RiskAssessment.generateRiskSummary; a top risk is the risk
paired with its impact-times-probability score. -/
structure RiskSummary where
  total : ℕ := 0
  byCategory : List (String × ℕ) := []
  byImpact : List (String × ℕ) := []
  byProbability : List (String × ℕ) := []
  riskScore : ℚ := 0
  topRisks : List (Risk × ℕ) := []
deriving DecidableEq

/-- Mitigation action of RiskAssessment.generateMitigationPlan. -/
structure MitigationAction where
  risk : String := ""
  action : String := ""
  priority : String := ""
deriving DecidableEq

/-- Monitoring entry of RiskAssessment.generateMitigationPlan. -/
structure MonitoringEntry where
  risk : String := ""
  indicators : List String := []
  frequency : String := ""
deriving DecidableEq

/-- Mitigation plan of RiskAssessment.generateMitigationPlan. -/
structure MitigationPlan where
  immediate : List MitigationAction := []
  shortTerm : List MitigationAction := []
  longTerm : List MitigationAction := []
  monitoring : List MonitoringEntry := []
deriving DecidableEq

/-- Result object of RiskAssessment.assess. -/
structure RiskOutput where
  technical : List Risk := []
  timeline : List Risk := []
  security : List Risk := []
  business : List Risk := []
  resource : List Risk := []
  summary : RiskSummary := {}
  mitigation : MitigationPlan := {}
deriving DecidableEq

/-- Workflow record: the synthesized plan with its optional enrichment
attachments. -/
structure Workflow where
  title : String := ""
  strategy : String := ""
  persona : String := ""
  phases : List Phase := []
  metadata : WorkflowMetadata := {}
  acceptanceCriteria : List String := []
  risks : Option RiskOutput := none
  dependencies : Option DependencyOutput := none
deriving DecidableEq

/-- BasePersona.generateWorkflow specialized to the backend persona: title and
strategy fall back over JS falsiness, metadata is computed from the
requirements, and the phase list is chosen by the strategy switch (systematic
for unknown strategies).  The persona-level enhanceWorkflow step only attaches
recommendation fields and leaves `phases` unchanged. -/
def backendGenerateWorkflow (r : Requirements) (strategy : String) : Workflow :=
  { title := if r.title = "" then "Implementation Workflow" else r.title,
    strategy := if strategy = "" then "systematic" else strategy,
    persona := "backend",
    metadata :=
      { estimatedDuration := estimateProjectDuration r,
        complexity := if r.complexity = 0 then 0.5 else r.complexity,
        riskLevel := assessRiskLevel r },
    phases :=
      if strategy = "systematic" then backendSystematicPhases r
      else if strategy = "agile" then generateAgileWorkflow r
      else if strategy = "mvp" then generateMVPWorkflow r
      else backendSystematicPhases r }

/-- Flattened text of a task, modelling its `JSON.stringify` serialization for
keyword scans: key names and string values in field order. -/
def taskText (t : Task) : String :=
  String.intercalate " " (
    ["type", t.type, "title", t.title, "description", t.description,
     "deliverables"] ++ t.deliverables ++ ["tools"] ++ t.tools
    ++ ["priority", t.priority.getD "", "dependencies"] ++ t.dependencies
    ++ ["estimatedHours", "storyPoints", "acceptanceCriteria"]
    ++ t.acceptanceCriteria ++ ["critical"])

/-- Flattened text of a phase for keyword scans. -/
def phaseText (p : Phase) : String :=
  String.intercalate " " (
    ["name", p.name, "type", p.type, "duration", p.duration, "tasks"]
    ++ p.tasks.map taskText)

/-- Flattened text of a workflow, modelling `JSON.stringify(workflow)` for the
keyword scans of the enrichment passes. -/
def wText (w : Workflow) : String :=
  String.intercalate " " (
    ["title", w.title, "strategy", w.strategy, "persona", w.persona, "phases"]
    ++ w.phases.map phaseText
    ++ ["metadata", "estimatedDuration", w.metadata.estimatedDuration,
        "complexity", "riskLevel", w.metadata.riskLevel,
        "acceptanceCriteria"] ++ w.acceptanceCriteria)

/-! ### Dependency Analyzer -/

namespace DependencyAnalyzer

/-- DependencyAnalyzer.extractServiceName: first known vendor occurring in the
lowercased title-plus-description. -/
def extractServiceName (title descr : String) : Option String :=
  let text := lowerStr (title ++ " " ++ descr)
  ["stripe", "paypal", "aws", "google", "facebook", "twitter",
   "github"].find? fun s => strContains text s

/-- DependencyAnalyzer.isExternalService. -/
def isExternalService (tool : String) : Bool :=
  ["stripe", "paypal", "twilio", "sendgrid", "aws", "gcp",
   "azure"].contains (lowerStr tool)

/-- DependencyAnalyzer.isServiceCritical. -/
def isServiceCritical (service : String) : Bool :=
  ["payment", "auth", "database", "storage"].any fun c =>
    strContains (lowerStr service) c

/-- DependencyAnalyzer.assessServiceRisk. -/
def assessServiceRisk (service : String) : String :=
  if ["payment", "financial", "banking"].any
      (fun k => strContains (lowerStr service) k) then "high"
  else if ["email", "sms", "notification"].any
      (fun k => strContains (lowerStr service) k) then "medium"
  else "low"

/-- DependencyAnalyzer.isTechnicalDependency. -/
def isTechnicalDependency (tool : String) : Bool :=
  ["react", "vue", "angular", "node", "express", "django", "rails",
   "spring"].contains (lowerStr tool)

/-- DependencyAnalyzer.extractTechnologies: known technology keywords found in
the text. -/
def extractTechnologies (text : String) : List String :=
  ["react", "vue", "angular", "node", "express", "mongodb", "postgresql",
   "redis"].filter fun tech => strContains (lowerStr text) tech

/-- DependencyAnalyzer.isTechCritical. -/
def isTechCritical (tech : String) : Bool :=
  ["database", "framework", "authentication"].any fun c =>
    strContains (lowerStr tech) c

/-- DependencyAnalyzer.suggestVersion. -/
def suggestVersion (tech : String) : String :=
  if lowerStr tech = "react" then "^18.0.0"
  else if lowerStr tech = "vue" then "^3.0.0"
  else if lowerStr tech = "angular" then "^16.0.0"
  else if lowerStr tech = "node" then "^18.0.0"
  else if lowerStr tech = "express" then "^4.18.0"
  else "latest"

/-- DependencyAnalyzer.identifyRequiredSkills: skill catalog keyed by phase
type. -/
def identifyRequiredSkills (p : Phase) : List String :=
  if p.type = "frontend" then ["React", "Vue", "Angular", "CSS", "JavaScript"]
  else if p.type = "backend" then ["Node.js", "Python", "Java", "Database"]
  else if p.type = "infrastructure" then
    ["DevOps", "Docker", "Kubernetes", "AWS"]
  else if p.type = "security" then ["Security", "Cryptography", "OAuth"]
  else if p.type = "design" then ["UI/UX", "Design", "Figma"]
  else []

/-- DependencyAnalyzer.isSkillCritical. -/
def isSkillCritical (skill : String) : Bool :=
  ["Security", "Database", "DevOps"].contains skill

/-- DependencyAnalyzer.isInfrastructureTool. -/
def isInfrastructureTool (tool : String) : Bool :=
  ["docker", "kubernetes", "terraform", "ansible", "aws", "gcp",
   "azure"].contains (lowerStr tool)

/-- DependencyAnalyzer.analyzeInternalDependencies: each phase after the first
depends on its predecessor, then each declared task dependency. -/
def analyzeInternalDependencies (w : Workflow) : List DepRecord :=
  (w.phases.enum.map fun pr =>
    (if pr.1 > 0 then
      [ { name := pr.2.name ++ " depends on "
            ++ (w.phases.getD (pr.1 - 1) default).name,
          type := "phase", critical := true,
          description := "Phase " ++ toString (pr.1 + 1)
            ++ " cannot start until Phase " ++ toString pr.1
            ++ " is complete" } ]
     else [])
    ++ (pr.2.tasks.map fun task =>
        task.dependencies.map fun dep =>
          { name := task.title ++ " depends on " ++ dep, type := "task",
            critical := task.priority = some "high",
            description := "Task requires completion of " ++ dep }).flatten
  ).flatten

/-- DependencyAnalyzer.analyzeExternalDependencies: vendor names mined from
integration tasks and external-service tools, deduplicated in insertion
order. -/
def analyzeExternalDependencies (w : Workflow) : List DepRecord :=
  let externalServices := w.phases.foldl
    (fun acc phase => phase.tasks.foldl
      (fun acc task =>
        let acc :=
          if task.type = "integration" || strContains task.title "integrate"
          then
            match extractServiceName task.title task.description with
            | some serviceName => setAdd acc serviceName
            | none => acc
          else acc
        task.tools.foldl
          (fun acc tool =>
            if isExternalService tool then setAdd acc tool else acc) acc)
      acc) []
  externalServices.map fun service =>
    { name := service, type := "external-service",
      critical := isServiceCritical service,
      description := "Integration with " ++ service ++ " service",
      riskLevel := assessServiceRisk service }

/-- DependencyAnalyzer.analyzeTechnicalDependencies: technology names mined
from task tools and descriptions. -/
def analyzeTechnicalDependencies (w : Workflow) : List DepRecord :=
  let technologies := w.phases.foldl
    (fun acc phase => phase.tasks.foldl
      (fun acc task =>
        let acc := task.tools.foldl
          (fun acc tool =>
            if isTechnicalDependency tool then setAdd acc tool else acc) acc
        (extractTechnologies task.description).foldl setAdd acc)
      acc) []
  technologies.map fun tech =>
    { name := tech, type := "technical", critical := isTechCritical tech,
      description := "Framework/library dependency: " ++ tech,
      version := suggestVersion tech }

/-- DependencyAnalyzer.analyzeTeamDependencies: one record per required skill
of each phase. -/
def analyzeTeamDependencies (w : Workflow) : List DepRecord :=
  (w.phases.map fun phase =>
    (identifyRequiredSkills phase).map fun skill =>
      { name := skill ++ " expertise required", type := "team-skill",
        critical := isSkillCritical skill,
        description := "Phase \"" ++ phase.name ++ "\" requires " ++ skill
          ++ " expertise" }).flatten

/-- DependencyAnalyzer.analyzeInfrastructureDependencies: infrastructure tools
of deployment/infrastructure phases, deduplicated. -/
def analyzeInfrastructureDependencies (w : Workflow) : List DepRecord :=
  let infrastructure := w.phases.foldl
    (fun acc phase =>
      if phase.type = "deployment" || phase.type = "infrastructure" then
        phase.tasks.foldl
          (fun acc task => task.tools.foldl
            (fun acc tool =>
              if isInfrastructureTool tool then setAdd acc tool else acc) acc)
          acc
      else acc) []
  infrastructure.map fun infra =>
    { name := infra, type := "infrastructure", critical := true,
      description := "Infrastructure requirement: " ++ infra }

/-- DependencyAnalyzer.identifyCriticalPath: phases that contain a
high-priority or critical task. -/
def identifyCriticalPath (w : Workflow) : List CriticalPathEntry :=
  (w.phases.map fun phase =>
    let criticalTasks := (phase.tasks.filter fun task =>
      task.priority = some "high" || task.critical).map (·.title)
    if criticalTasks.length > 0 then
      [{ phase := phase.name, tasks := criticalTasks,
         duration := phase.duration }]
    else []).flatten

/-- DependencyAnalyzer.identifyBottlenecks: more than five tasks, or more than
three tasks with declared dependencies, in one phase. -/
def identifyBottlenecks (w : Workflow) : List Bottleneck :=
  (w.phases.map fun phase =>
    (if phase.tasks.length > 5 then
      [{ type := "complexity", location := phase.name,
         description := "Phase has " ++ toString phase.tasks.length
           ++ " tasks - potential complexity bottleneck",
         recommendation := "Consider breaking into smaller phases" }]
     else [])
    ++ (if ((phase.tasks.filter fun task =>
          task.dependencies.length > 0).length > 3) then
        [{ type := "sequential", location := phase.name,
           description := "Multiple sequential dependencies detected",
           recommendation := "Look for parallelization opportunities" }]
       else [])).flatten

/-- DependencyAnalyzer.analyze: the seven dependency views. -/
def analyze (w : Workflow) : DependencyOutput :=
  { internal := analyzeInternalDependencies w,
    external := analyzeExternalDependencies w,
    technical := analyzeTechnicalDependencies w,
    team := analyzeTeamDependencies w,
    infrastructure := analyzeInfrastructureDependencies w,
    criticalPath := identifyCriticalPath w,
    bottlenecks := identifyBottlenecks w }

end DependencyAnalyzer

/-! ### Risk Assessment -/

namespace RiskAssessment

/-- Impact level scores (`impactLevels[..].score`, unknown levels default
to 1). -/
def impactScore (impact : String) : ℕ :=
  if impact = "low" then 1 else if impact = "medium" then 2
  else if impact = "high" then 3 else if impact = "critical" then 4 else 1

/-- Probability level scores (`probabilityLevels[..].score`, unknown levels
default to 1). -/
def probabilityScore (probability : String) : ℕ :=
  if probability = "low" then 1 else if probability = "medium" then 2
  else if probability = "high" then 3
  else if probability = "certain" then 4 else 1

/-- RiskAssessment.identifyNewTechnologies: returns the empty list in the
source. -/
def identifyNewTechnologies (_w : Workflow) : List String := []

/-- RiskAssessment.countIntegrations: integration-typed tasks or tasks whose
lowercased title contains `integrate`. -/
def countIntegrations (w : Workflow) : ℕ :=
  (w.phases.map fun phase =>
    (phase.tasks.filter fun task =>
      task.type = "integration"
        || strContains (lowerStr task.title) "integrate").length).sum

/-- RiskAssessment.hasPerformanceRequirements: keyword scan over the
serialized workflow. -/
def hasPerformanceRequirements (w : Workflow) : Bool :=
  ["performance", "speed", "fast", "optimization", "scalability"].any
    fun keyword => strContains (lowerStr (wText w)) keyword

/-- Leading decimal number of a string (JS `parseInt` on the strings involved,
`none` standing for NaN). -/
def leadingNat (s : String) : Option ℕ :=
  let digits := (s.data.dropWhile (· = ' ')).takeWhile (·.isDigit)
  if digits.isEmpty then none else (String.mk digits).toNat?

/-- RiskAssessment.hasAggressiveTimeline: an estimated duration mentioning
weeks with a leading figure of at most 4. -/
def hasAggressiveTimeline (w : Workflow) : Bool :=
  if w.metadata.estimatedDuration = "" then false
  else
    let duration := lowerStr w.metadata.estimatedDuration
    strContains duration "week"
      && (leadingNat duration).elim false (· ≤ 4)

/-- RiskAssessment.identifyCriticalDependencies: returns the empty list in the
source. -/
def identifyCriticalDependencies (_w : Workflow) : List String := []

/-- RiskAssessment.hasResourceConstraints: returns false in the source. -/
def hasResourceConstraints (_w : Workflow) : Bool := false

/-- RiskAssessment.hasSecurityRequirements: keyword scan. -/
def hasSecurityRequirements (w : Workflow) : Bool :=
  ["auth", "security", "encrypt", "privacy", "compliance"].any
    fun keyword => strContains (lowerStr (wText w)) keyword

/-- RiskAssessment.handlessensitiveData: keyword scan. -/
def handlessensitiveData (w : Workflow) : Bool :=
  ["user data", "payment", "personal", "pii", "financial"].any
    fun keyword => strContains (lowerStr (wText w)) keyword

/-- RiskAssessment.identifyThirdPartyServices: returns the empty list in the
source. -/
def identifyThirdPartyServices (_w : Workflow) : List String := []

/-- RiskAssessment.isMarketSensitive: keyword scan. -/
def isMarketSensitive (w : Workflow) : Bool :=
  ["competitive", "market", "customer-facing", "public"].any
    fun keyword => strContains (lowerStr (wText w)) keyword

/-- RiskAssessment.identifyRequiredSkills: returns the empty list in the
source. -/
def identifyRequiredSkills (_w : Workflow) : List String := []

/-- RiskAssessment.isTeamTooSmall: returns false in the source. -/
def isTeamTooSmall (_w : Workflow) : Bool := false

/-- RiskAssessment.assessTechnicalRisks: complexity, new-technology,
integration and performance rules. -/
def assessTechnicalRisks (w : Workflow) : List Risk :=
  (if w.metadata.complexity > 0.7 then
    [{ name := "High Technical Complexity", category := "technical",
       probability := "high", impact := "high",
       description := "High system complexity may lead to implementation challenges",
       indicators := ["Complex architecture", "Multiple integrations",
         "Advanced features"],
       mitigation := "Break down into smaller components, conduct proof-of-concepts" }]
   else [])
  ++ (let newTechnologies := identifyNewTechnologies w
      if newTechnologies.length > 0 then
        [{ name := "New Technology Adoption", category := "technical",
           probability := "medium", impact := "medium",
           description := "Adoption of new technologies may cause learning curve delays",
           indicators := newTechnologies,
           mitigation := "Provide training, create prototypes, use stable versions" }]
      else [])
  ++ (let integrations := countIntegrations w
      if integrations > 3 then
        [{ name := "Multiple External Integrations", category := "technical",
           probability := "medium", impact := "high",
           description := "Multiple external integrations increase failure points",
           indicators := [toString integrations ++ " external integrations"],
           mitigation := "Implement circuit breakers, fallback mechanisms, thorough testing" }]
      else [])
  ++ (if hasPerformanceRequirements w then
        [{ name := "Performance Requirements", category := "technical",
           probability := "medium", impact := "high",
           description := "Strict performance requirements may be challenging to meet",
           indicators := ["Performance-critical features",
             "Scalability requirements"],
           mitigation := "Early performance testing, optimization sprints, monitoring" }]
      else [])

/-- RiskAssessment.assessTimelineRisks: aggressive timeline, critical
dependencies and resource availability rules. -/
def assessTimelineRisks (w : Workflow) : List Risk :=
  (if hasAggressiveTimeline w then
    [{ name := "Aggressive Timeline", category := "timeline",
       probability := "high", impact := "high",
       description := "Timeline may be too aggressive for scope of work",
       indicators := ["Short duration", "High complexity", "Multiple phases"],
       mitigation := "Reduce scope, parallel development, additional resources" }]
   else [])
  ++ (let criticalDependencies := identifyCriticalDependencies w
      if criticalDependencies.length > 0 then
        [{ name := "Critical Path Dependencies", category := "timeline",
           probability := "medium", impact := "high",
           description := "Dependencies on critical path may cause delays",
           indicators := criticalDependencies,
           mitigation := "Early engagement with dependencies, parallel work streams" }]
      else [])
  ++ (if hasResourceConstraints w then
        [{ name := "Resource Availability", category := "timeline",
           probability := "medium", impact := "medium",
           description := "Limited resource availability may impact timeline",
           indicators := ["Small team", "Specialized skills required"],
           mitigation := "Resource planning, skill development, external contractors" }]
      else [])

/-- RiskAssessment.assessSecurityRisks: security requirement, sensitive data
and third-party rules. -/
def assessSecurityRisks (w : Workflow) : List Risk :=
  (if hasSecurityRequirements w then
    [{ name := "Security Implementation", category := "security",
       probability := "medium", impact := "critical",
       description := "Security implementation errors could expose system",
       indicators := ["Authentication required", "Data protection",
         "Compliance needs"],
       mitigation := "Security review, penetration testing, security training" }]
   else [])
  ++ (if handlessensitiveData w then
        [{ name := "Sensitive Data Handling", category := "security",
           probability := "medium", impact := "critical",
           description := "Improper handling of sensitive data could cause breaches",
           indicators := ["User data", "Payment information", "Personal data"],
           mitigation := "Encryption, access controls, data minimization, compliance audit" }]
      else [])
  ++ (let thirdPartyServices := identifyThirdPartyServices w
      if thirdPartyServices.length > 0 then
        [{ name := "Third-Party Security", category := "security",
           probability := "low", impact := "high",
           description := "Third-party services may introduce security vulnerabilities",
           indicators := thirdPartyServices,
           mitigation := "Security assessment of vendors, secure integration practices" }]
      else [])

/-- RiskAssessment.assessBusinessRisks: scope creep and stakeholder alignment
are pushed unconditionally, market changes conditionally in between. -/
def assessBusinessRisks (w : Workflow) : List Risk :=
  [{ name := "Scope Creep", category := "business", probability := "high",
     impact := "medium",
     description := "Requirements may expand during development",
     indicators := ["Evolving requirements", "Stakeholder changes"],
     mitigation := "Clear scope definition, change control process, regular reviews" }]
  ++ (if isMarketSensitive w then
        [{ name := "Market Changes", category := "business",
           probability := "medium", impact := "medium",
           description := "Market conditions may change during development",
           indicators := ["Competitive product", "Market-driven features"],
           mitigation := "Regular market analysis, flexible architecture, MVP approach" }]
      else [])
  ++ [{ name := "Stakeholder Alignment", category := "business",
        probability := "medium", impact := "medium",
        description := "Stakeholders may have conflicting priorities",
        indicators := ["Multiple stakeholders", "Complex requirements"],
        mitigation := "Regular communication, clear decision-making process" }]

/-- RiskAssessment.assessResourceRisks: skill gaps and team size are guarded
by stubbed helpers, key person dependency is pushed unconditionally. -/
def assessResourceRisks (w : Workflow) : List Risk :=
  (let requiredSkills := identifyRequiredSkills w
   if requiredSkills.length > 0 then
     [{ name := "Skill Gaps", category := "resource", probability := "medium",
        impact := "medium",
        description := "Team may lack required specialized skills",
        indicators := requiredSkills,
        mitigation := "Training programs, external expertise, mentoring" }]
   else [])
  ++ (if isTeamTooSmall w then
        [{ name := "Insufficient Team Size", category := "resource",
           probability := "medium", impact := "high",
           description := "Team size may be insufficient for project scope",
           indicators := ["Small team", "Large scope", "Tight timeline"],
           mitigation := "Additional hiring, contractors, scope reduction" }]
      else [])
  ++ [{ name := "Key Person Dependency", category := "resource",
        probability := "low", impact := "high",
        description := "Project may be dependent on key individuals",
        indicators := ["Specialized knowledge", "Single points of failure"],
        mitigation := "Knowledge sharing, documentation, cross-training" }]

/-- Impact-times-probability score of one risk. -/
def riskScoreOf (rk : Risk) : ℕ :=
  impactScore rk.impact * probabilityScore rk.probability

/-- RiskAssessment.generateRiskSummary: counters, average score, and the top
five risks sorted by descending score (stable sort, as the JS engine sorts). -/
def generateRiskSummary (allRisks : List Risk) : RiskSummary :=
  { total := allRisks.length,
    byCategory := ["technical", "timeline", "security", "business",
      "resource"].map fun c =>
        (c, (allRisks.filter fun rk => rk.category = c).length),
    byImpact := ["low", "medium", "high", "critical"].map fun i =>
      (i, (allRisks.filter fun rk => rk.impact = i).length),
    byProbability := ["low", "medium", "high", "certain"].map fun pb =>
      (pb, (allRisks.filter fun rk => rk.probability = pb).length),
    riskScore := ((allRisks.map fun rk => (riskScoreOf rk : ℚ)).sum)
      / ((max allRisks.length 1 : ℕ) : ℚ),
    topRisks := ((allRisks.map fun rk => (rk, riskScoreOf rk)).mergeSort
      fun a b => b.2 ≤ a.2).take 5 }

/-- RiskAssessment.generateMitigationPlan: bucket by score thresholds 9 and 6,
monitor everything. -/
def generateMitigationPlan (allRisks : List Risk) : MitigationPlan :=
  { immediate := (allRisks.filter fun rk => riskScoreOf rk ≥ 9).map fun rk =>
      { risk := rk.name, action := rk.mitigation, priority := "critical" },
    shortTerm := (allRisks.filter fun rk =>
      ¬ riskScoreOf rk ≥ 9 ∧ riskScoreOf rk ≥ 6).map fun rk =>
      { risk := rk.name, action := rk.mitigation, priority := "high" },
    longTerm := (allRisks.filter fun rk => riskScoreOf rk < 6).map fun rk =>
      { risk := rk.name, action := rk.mitigation, priority := "medium" },
    monitoring := allRisks.map fun rk =>
      { risk := rk.name, indicators := rk.indicators,
        frequency := if riskScoreOf rk ≥ 6 then "weekly" else "monthly" } }

/-- RiskAssessment.assess: the five category rule sets, the summary over the
flattened list and the mitigation plan. -/
def assess (w : Workflow) : RiskOutput :=
  let technical := assessTechnicalRisks w
  let timeline := assessTimelineRisks w
  let security := assessSecurityRisks w
  let business := assessBusinessRisks w
  let resource := assessResourceRisks w
  let allRisks := technical ++ timeline ++ security ++ business ++ resource
  { technical := technical, timeline := timeline, security := security,
    business := business, resource := resource,
    summary := generateRiskSummary allRisks,
    mitigation := generateMitigationPlan allRisks }

end RiskAssessment

/-! ### Quality Gates -/

/-- Result of one quality gate run. -/
structure GateResult where
  passed : Bool := false
  score : ℚ := 0
  issues : List String := []
  recommendations : List String := []
deriving DecidableEq

/-- One entry of the validation result: the gate result together with the
gate name and weight. -/
structure GateEntry where
  name : String := ""
  passed : Bool := false
  score : ℚ := 0
  issues : List String := []
  recommendations : List String := []
  weight : ℚ := 0
deriving DecidableEq

instance : Inhabited GateEntry := ⟨{}⟩

/-- Blocker record of QualityGates.identifyBlockers. -/
structure Blocker where
  gate : String := ""
  issues : List String := []
  severity : String := ""
deriving DecidableEq

/-- Overall part of the validation result. -/
structure OverallResult where
  passed : Bool := false
  score : ℚ := 0
deriving DecidableEq

/-- Result object of QualityGates.validate. -/
structure ValidationResult where
  overall : OverallResult := {}
  gates : List GateEntry := []
  recommendations : List String := []
  blockers : List Blocker := []
deriving DecidableEq

namespace QualityGates

/-- Gate catalog of the QualityGates constructor: seven names with weights. -/
def gatesCatalog : List (String × ℚ) :=
  [ ("Requirements Validation", 0.2),
    ("Architecture Review", 0.15),
    ("Security Assessment", 0.15),
    ("Performance Validation", 0.15),
    ("Testing Strategy", 0.15),
    ("Documentation Review", 0.1),
    ("Risk Assessment", 0.1) ]

/-- Passing threshold of the validator. -/
def passingScore : ℚ := 0.8

/-- QualityGates.validateRequirements: title, phases, task descriptions and
acceptance criteria checks. -/
def validateRequirements (w : Workflow) : GateResult :=
  let issues : List String := []
  let score : ℚ := 1.0
  let (issues, score) :=
    if w.title = "" then (issues ++ ["Missing workflow title"], score - 0.1)
    else (issues, score)
  let (issues, score) :=
    if w.phases.length = 0 then
      (issues ++ ["No implementation phases defined"], score - 0.3)
    else (issues, score)
  let totalTasks := (w.phases.map fun p => p.tasks.length).sum
  let tasksWithoutDescription :=
    (w.phases.map fun p => (p.tasks.filter fun t => t.description = "").length).sum
  let (issues, score) :=
    if totalTasks > 0 ∧ (tasksWithoutDescription : ℚ) / (totalTasks : ℚ) > 0.5
    then (issues ++ ["Many tasks lack detailed descriptions"], score - 0.2)
    else (issues, score)
  let (issues, score) :=
    if w.acceptanceCriteria.length = 0 then
      (issues ++ ["Missing acceptance criteria"], score - 0.2)
    else (issues, score)
  { passed := decide (score ≥ 0.8), score := max 0 score, issues := issues,
    recommendations :=
      if issues.length > 0 then ["Add missing requirements details"] else [] }

/-- QualityGates.reviewArchitecture: architecture phase, technology tasks,
scalability mention and architect-persona checks. -/
def reviewArchitecture (w : Workflow) : GateResult :=
  let issues : List String := []
  let score : ℚ := 1.0
  let hasArchPhase := w.phases.any fun p =>
    p.type = "architecture" || strContains (lowerStr p.name) "architecture"
  let (issues, score) :=
    if ¬ hasArchPhase then
      (issues ++ ["No dedicated architecture planning phase"], score - 0.3)
    else (issues, score)
  let hasTechDecisions := w.phases.any fun p => p.tasks.any fun t =>
    strContains (lowerStr t.title) "technology"
      || strContains (lowerStr t.title) "framework"
  let (issues, score) :=
    if ¬ hasTechDecisions then
      (issues ++ ["No technology selection tasks identified"], score - 0.2)
    else (issues, score)
  let hasScalability := strContains (lowerStr (wText w)) "scalability"
  let (issues, score) :=
    if ¬ hasScalability then
      (issues ++ ["No scalability considerations mentioned"], score - 0.2)
    else (issues, score)
  let (issues, score) :=
    if w.persona = "architect" ∧ score < 0.9 then
      (issues ++ ["Architecture workflow should have more detailed planning"],
       score - 0.1)
    else (issues, score)
  { passed := decide (score ≥ 0.8), score := max 0 score, issues := issues,
    recommendations :=
      if issues.length > 0 then ["Add architecture planning tasks"] else [] }

/-- QualityGates.assessSecurity: security tasks, authentication, validation
and encryption mentions. -/
def assessSecurity (w : Workflow) : GateResult :=
  let issues : List String := []
  let score : ℚ := 1.0
  let hasSecurityTasks := w.phases.any fun p => p.tasks.any fun t =>
    strContains (lowerStr t.title) "security"
      || strContains (lowerStr t.title) "auth" || t.type = "security"
  let (issues, score) :=
    if ¬ hasSecurityTasks then
      (issues ++ ["No security implementation tasks identified"], score - 0.4)
    else (issues, score)
  let hasAuth := strContains (lowerStr (wText w)) "auth"
  let (issues, score) :=
    if ¬ hasAuth then
      (issues ++ ["No authentication considerations"], score - 0.2)
    else (issues, score)
  let hasValidation := strContains (lowerStr (wText w)) "validation"
  let (issues, score) :=
    if ¬ hasValidation then
      (issues ++ ["No input validation mentioned"], score - 0.2)
    else (issues, score)
  let hasEncryption := strContains (lowerStr (wText w)) "encrypt"
  let (issues, score) :=
    if ¬ hasEncryption then
      (issues ++ ["No encryption considerations"], score - 0.2)
    else (issues, score)
  { passed := decide (score ≥ 0.8), score := max 0 score, issues := issues,
    recommendations :=
      if issues.length > 0 then ["Add security implementation tasks"] else [] }

/-- QualityGates.validatePerformance: performance tasks, monitoring, load
testing and caching mentions. -/
def validatePerformance (w : Workflow) : GateResult :=
  let issues : List String := []
  let score : ℚ := 1.0
  let hasPerformanceTasks := w.phases.any fun p => p.tasks.any fun t =>
    strContains (lowerStr t.title) "performance"
      || strContains (lowerStr t.title) "optimization" || t.type = "optimize"
  let (issues, score) :=
    if ¬ hasPerformanceTasks then
      (issues ++ ["No performance optimization tasks"], score - 0.3)
    else (issues, score)
  let hasMonitoring := strContains (lowerStr (wText w)) "monitor"
  let (issues, score) :=
    if ¬ hasMonitoring then
      (issues ++ ["No performance monitoring planned"], score - 0.3)
    else (issues, score)
  let hasLoadTesting := strContains (lowerStr (wText w)) "load test"
  let (issues, score) :=
    if ¬ hasLoadTesting then
      (issues ++ ["No load testing planned"], score - 0.2)
    else (issues, score)
  let hasCaching := strContains (lowerStr (wText w)) "cach"
  let (issues, score) :=
    if ¬ hasCaching then
      (issues ++ ["No caching strategy mentioned"], score - 0.2)
    else (issues, score)
  { passed := decide (score ≥ 0.8), score := max 0 score, issues := issues,
    recommendations :=
      if issues.length > 0 then ["Add performance optimization tasks"]
      else [] }

/-- QualityGates.validateTesting: testing phase, test type coverage,
automation and QA-persona checks. -/
def validateTesting (w : Workflow) : GateResult :=
  let issues : List String := []
  let score : ℚ := 1.0
  let hasTestingPhase := w.phases.any fun p =>
    p.type = "testing" || strContains (lowerStr p.name) "test"
  let (issues, score) :=
    if ¬ hasTestingPhase then
      (issues ++ ["No dedicated testing phase"], score - 0.3)
    else (issues, score)
  let workflowStr := lowerStr (wText w)
  let missingTests := ["unit test", "integration test", "e2e test",
    "acceptance test"].filter fun t => ¬ strContains workflowStr t
  let (issues, score) :=
    if missingTests.length > 2 then
      (issues ++ ["Missing test types: "
        ++ String.intercalate ", " missingTests], score - 0.3)
    else (issues, score)
  let hasAutomation := strContains workflowStr "automat"
  let (issues, score) :=
    if ¬ hasAutomation then
      (issues ++ ["No test automation mentioned"], score - 0.2)
    else (issues, score)
  let (issues, score) :=
    if w.persona = "qa" ∧ score < 0.9 then
      (issues ++ ["QA workflow should have comprehensive testing strategy"],
       score - 0.1)
    else (issues, score)
  { passed := decide (score ≥ 0.8), score := max 0 score, issues := issues,
    recommendations :=
      if issues.length > 0 then ["Add comprehensive testing strategy"]
      else [] }

/-- QualityGates.reviewDocumentation: documentation tasks, deliverable
coverage and API documentation checks. -/
def reviewDocumentation (w : Workflow) : GateResult :=
  let issues : List String := []
  let score : ℚ := 1.0
  let hasDocTasks := w.phases.any fun p => p.tasks.any fun t =>
    strContains (lowerStr t.title) "document"
      || t.deliverables.any fun d => strContains (lowerStr d) "document"
  let (issues, score) :=
    if ¬ hasDocTasks then
      (issues ++ ["No documentation tasks identified"], score - 0.4)
    else (issues, score)
  let totalTasks := (w.phases.map fun p => p.tasks.length).sum
  let tasksWithDeliverables :=
    (w.phases.map fun p =>
      (p.tasks.filter fun t => t.deliverables.length > 0).length).sum
  let (issues, score) :=
    if totalTasks > 0 ∧ (tasksWithDeliverables : ℚ) / (totalTasks : ℚ) < 0.5
    then (issues ++ ["Many tasks lack deliverable specifications"],
      score - 0.3)
    else (issues, score)
  let (issues, score) :=
    if strContains (lowerStr (wText w)) "api" then
      if ¬ strContains (lowerStr (wText w)) "api doc" then
        (issues ++ ["API development without documentation planning"],
         score - 0.3)
      else (issues, score)
    else (issues, score)
  { passed := decide (score ≥ 0.8), score := max 0 score, issues := issues,
    recommendations :=
      if issues.length > 0 then ["Add documentation tasks and deliverables"]
      else [] }

/-- QualityGates.assessRisks: risk attachment, mitigation and dependency
checks on the workflow record. -/
def assessRisks (w : Workflow) : GateResult :=
  let issues : List String := []
  let score : ℚ := 1.0
  let (issues, score) :=
    if w.risks = none then
      (issues ++ ["No risk assessment provided"], score - 0.5)
    else (issues, score)
  let (issues, score) :=
    if w.risks = none then
      (issues ++ ["No risk mitigation strategies"], score - 0.3)
    else (issues, score)
  let (issues, score) :=
    if w.dependencies = none then
      (issues ++ ["No dependency analysis"], score - 0.2)
    else (issues, score)
  { passed := decide (score ≥ 0.8), score := max 0 score, issues := issues,
    recommendations :=
      if issues.length > 0 then ["Add risk assessment and mitigation"]
      else [] }

/-- QualityGates.runGate: dispatch by gate name. -/
def runGate (gateName : String) (w : Workflow) : GateResult :=
  if gateName = "Requirements Validation" then validateRequirements w
  else if gateName = "Architecture Review" then reviewArchitecture w
  else if gateName = "Security Assessment" then assessSecurity w
  else if gateName = "Performance Validation" then validatePerformance w
  else if gateName = "Testing Strategy" then validateTesting w
  else if gateName = "Documentation Review" then reviewDocumentation w
  else if gateName = "Risk Assessment" then assessRisks w
  else { passed := false, score := 0, issues := ["Unknown gate"] }

/-- QualityGates.calculateOverallScore: weighted sum over total weight, zero
when the total weight is zero. -/
def calculateOverallScore (gates : List GateEntry) : ℚ :=
  let totalScore := (gates.map fun g => g.score * g.weight).sum
  let totalWeight := (gates.map fun g => g.weight).sum
  if totalWeight > 0 then totalScore / totalWeight else 0

/-- QualityGates.generateRecommendations: one line per failed gate. -/
def generateRecommendations (gates : List GateEntry) : List String :=
  (gates.filter fun g => g.passed = false).map fun g =>
    g.name ++ ": "
      ++ (if g.recommendations.isEmpty then "Needs improvement"
          else String.intercalate ", " g.recommendations)

/-- QualityGates.identifyBlockers: gates scoring below the critical failure
threshold 0.5. -/
def identifyBlockers (gates : List GateEntry) : List Blocker :=
  (gates.filter fun g => g.score < 0.5).map fun g =>
    { gate := g.name, issues := g.issues, severity := "critical" }

/-- QualityGates.validate: run every gate, compute the overall score, the
pass verdict, the recommendations and the blockers. -/
def validate (w : Workflow) : ValidationResult :=
  let gates := gatesCatalog.map fun g =>
    let res := runGate g.1 w
    ({ name := g.1, passed := res.passed, score := res.score,
       issues := res.issues, recommendations := res.recommendations,
       weight := g.2 } : GateEntry)
  let overallScore := calculateOverallScore gates
  { overall := { score := overallScore,
                 passed := decide (overallScore ≥ passingScore) },
    gates := gates,
    recommendations := generateRecommendations gates,
    blockers := identifyBlockers gates }

end QualityGates

/-! ### Concrete instances used to settle the claims -/

/-- Minimal well-formed workflow with zero phases. -/
def emptyWorkflow : Workflow := {}

/-- Requirements with no high- or critical-priority features, driving the MVP
strategy into an empty Rapid Development task list. -/
def mvpCounterexampleReq : Requirements := {}

/-- Concatenation of the story lists of a sprint sequence, in order. -/
def sprintsStories (sprints : List Sprint) : List Story :=
  (sprints.map (·.userStories)).flatten

/-- Total story points of a sprint, recomputed from its stories. -/
def sumPoints (sp : Sprint) : ℕ :=
  (sp.userStories.map (·.storyPoints)).sum

end WorkflowPipeline

/-! ## Theorems -/

namespace WorkflowPipeline

/-- Unfolded form of the complexity score: the spec-side single weighted sum
with flat additions, before clamping. -/
lemma calculateComplexity_eq (r : Requirements) :
    calculateComplexity r = specComplexity r := by
  unfold calculateComplexity specComplexity
  simp only [List.foldl]
  split_ifs <;>
    · rw [max_eq_right (le_min (by positivity) zero_le_one)]
      congr 1
      ring

/-- Lower bound of the computed complexity. -/
lemma calculateComplexity_nonneg (r : Requirements) :
    0 ≤ calculateComplexity r := by
  rw [calculateComplexity_eq]
  exact le_max_left _ _

/-- Upper bound of the computed complexity. -/
lemma calculateComplexity_le_one (r : Requirements) :
    calculateComplexity r ≤ 1 := by
  rw [calculateComplexity_eq]
  unfold specComplexity
  exact max_le (by norm_num) (min_le_right _ _)

/-- C1: the Signal Scorer complexity is exactly the capped weighted sum with
flat additions for realtime, high security, critical performance and
enterprise scalability, clamped to [0,1]. -/
theorem complexity_is_clamped_weighted_sum (r : Requirements) :
    calculateComplexity r = specComplexity r
    ∧ 0 ≤ calculateComplexity r ∧ calculateComplexity r ≤ 1 :=
  ⟨calculateComplexity_eq r, calculateComplexity_nonneg r,
   calculateComplexity_le_one r⟩

/-- C3 counterexample: on a record with stored complexity 0.8 and eleven
features, the claimed indicator set yields `medium` while the Signal Scorer
returns `low` (its indicators are timeline/team based with thresholds 5/3). -/
theorem initial_risk_counterexample :
    assessInitialRisk riskCounterexample = "low"
    ∧ claimInitialRisk riskCounterexample = "medium" := by
  constructor
  · simp [assessInitialRisk, riskCounterexample]
    norm_num
  · simp [claimInitialRisk, riskCounterexample]
    norm_num

/-- C3 amended: the initial risk sums complexity>0.7 (+2), integrations>3
(+2), high security (+1), tight timeline (+2) and small team (+1), and maps
the total through thresholds 5 (high) and 3 (medium). -/
theorem initial_risk_amended (r : Requirements) :
    assessInitialRisk r = actualInitialRisk r := by
  unfold assessInitialRisk actualInitialRisk
  simp only [List.sum_cons, List.sum_nil]
  split_ifs <;> simp_all

/-- Appending a feature never lowers the computed complexity. -/
lemma calculateComplexity_mono_features (r : Requirements) (f : Feature) :
    calculateComplexity r
      ≤ calculateComplexity {r with features := r.features ++ [f]} := by
  obtain ⟨t, fs, cs, il, ur, pg, dm, pt, rt, sec, perf, scal, tl, tm, ts, cx⟩ := r
  rw [calculateComplexity_eq, calculateComplexity_eq]
  unfold specComplexity
  simp only [List.length_append, List.length_cons, List.length_nil]
  gcongr
  all_goals
    first
      | exact_mod_cast Nat.cast_le.mpr (Nat.min_le_min (Nat.le_succ _) le_rfl)
      | norm_num

/-- Appending an integration never lowers the computed complexity. -/
lemma calculateComplexity_mono_integrations (r : Requirements) (i : String) :
    calculateComplexity r
      ≤ calculateComplexity {r with integrations := r.integrations ++ [i]} := by
  obtain ⟨t, fs, cs, il, ur, pg, dm, pt, rt, sec, perf, scal, tl, tm, ts, cx⟩ := r
  rw [calculateComplexity_eq, calculateComplexity_eq]
  unfold specComplexity
  simp only [List.length_append, List.length_cons, List.length_nil]
  gcongr
  all_goals
    first
      | exact_mod_cast Nat.cast_le.mpr (Nat.min_le_min (Nat.le_succ _) le_rfl)
      | norm_num

/-- Appending a component never lowers the computed complexity. -/
lemma calculateComplexity_mono_components (r : Requirements) (c : String) :
    calculateComplexity r
      ≤ calculateComplexity {r with components := r.components ++ [c]} := by
  obtain ⟨t, fs, cs, il, ur, pg, dm, pt, rt, sec, perf, scal, tl, tm, ts, cx⟩ := r
  rw [calculateComplexity_eq, calculateComplexity_eq]
  unfold specComplexity
  simp only [List.length_append, List.length_cons, List.length_nil]
  gcongr
  all_goals
    first
      | exact_mod_cast Nat.cast_le.mpr (Nat.min_le_min (Nat.le_succ _) le_rfl)
      | norm_num

/-- Turning the realtime flag on never lowers the computed complexity. -/
lemma calculateComplexity_mono_realtime (r : Requirements) :
    calculateComplexity r ≤ calculateComplexity {r with realtime := true} := by
  obtain ⟨t, fs, cs, il, ur, pg, dm, pt, rt, sec, perf, scal, tl, tm, ts, cx⟩ := r
  cases rt with
  | true => exact le_rfl
  | false =>
    rw [calculateComplexity_eq, calculateComplexity_eq]
    unfold specComplexity
    simp only [Bool.false_eq_true, if_false, if_true]
    gcongr
    norm_num

/-- Duration estimate monotonicity in the three counts and the computed
complexity. -/
lemma estimateDuration_le_of (r r' : Requirements)
    (hc : r.components.length ≤ r'.components.length)
    (hf : r.features.length ≤ r'.features.length)
    (hi : r.integrations.length ≤ r'.integrations.length)
    (hcx : calculateComplexity r ≤ calculateComplexity r') :
    estimateDuration r ≤ estimateDuration r' := by
  unfold estimateDuration
  apply Nat.ceil_mono
  have h0 : (0:ℚ) ≤ 2 + (r.components.length : ℚ) * 0.5
      + (r.features.length : ℚ) * 0.3 + (r.integrations.length : ℚ) * 1 := by
    positivity
  have h1 : calculateComplexity r' ≤ 1 := calculateComplexity_le_one r'
  have h2 : (0:ℚ) ≤ calculateComplexity r := calculateComplexity_nonneg r
  have hb : (2 + (r.components.length : ℚ) * 0.5
        + (r.features.length : ℚ) * 0.3 + (r.integrations.length : ℚ) * 1)
      ≤ 2 + (r'.components.length : ℚ) * 0.5
        + (r'.features.length : ℚ) * 0.3 + (r'.integrations.length : ℚ) * 1 := by
    gcongr
  calc (2 + (r.components.length : ℚ) * 0.5 + (r.features.length : ℚ) * 0.3
          + (r.integrations.length : ℚ) * 1) * (1 + calculateComplexity r)
      ≤ (2 + (r'.components.length : ℚ) * 0.5 + (r'.features.length : ℚ) * 0.3
          + (r'.integrations.length : ℚ) * 1) * (1 + calculateComplexity r') := by
        apply mul_le_mul hb (by linarith) (by linarith) (le_trans h0 hb)
    _ = _ := rfl

/-- C4 counterexample: with exactly two features, the code estimates
`ceil(2.6 * 1.06) = 3` weeks while the claimed formula gives
`ceil(3 * 1.06) = 4`. -/
theorem duration_counterexample :
    estimateDuration durationCounterexample = 3
    ∧ claimDuration durationCounterexample = 4 := by
  constructor
  · simp [estimateDuration, calculateComplexity, durationCounterexample]
    norm_num [min_def, Nat.ceil_eq_iff]
  · simp [claimDuration, calculateComplexity, durationCounterexample]
    norm_num [min_def, Nat.ceil_eq_iff]

/-- C4 amended: the estimated duration is
`ceil((2 + 0.5*components + 0.3*features + 1*integrations) *
(1 + complexity))` weeks, and the estimate is monotone: appending a feature,
an integration or a component, or raising the complexity via the realtime
flag, never decreases it. -/
theorem duration_amended (r : Requirements) (c i : String) (f : Feature) :
    estimateDuration r = actualDuration r
    ∧ estimateDuration r ≤ estimateDuration {r with features := r.features ++ [f]}
    ∧ estimateDuration r
        ≤ estimateDuration {r with integrations := r.integrations ++ [i]}
    ∧ estimateDuration r
        ≤ estimateDuration {r with components := r.components ++ [c]}
    ∧ estimateDuration r ≤ estimateDuration {r with realtime := true} := by
  refine ⟨rfl, ?_, ?_, ?_, ?_⟩
  · exact estimateDuration_le_of _ _ le_rfl
      (by simp) le_rfl (calculateComplexity_mono_features r f)
  · exact estimateDuration_le_of _ _ le_rfl le_rfl
      (by simp) (calculateComplexity_mono_integrations r i)
  · exact estimateDuration_le_of _ _ (by simp) le_rfl le_rfl
      (calculateComplexity_mono_components r c)
  · exact estimateDuration_le_of _ _ le_rfl le_rfl le_rfl
      (calculateComplexity_mono_realtime r)

/-- C2: a catalog viewpoint name given as override is returned verbatim, a
name whose lowercasing is not in the catalog raises the unknown-viewpoint
error, and automatic selection follows the fixed precedence chain
frontend, backend, security, devops, architect (the architect arm covering
both the multi-domain/high-complexity case and the default fallback). -/
theorem viewpoint_selection (t : String) (domains patterns : List String)
    (complexity : ℚ) :
    (t ∈ personaCatalog → PersonaFactory.create t = .ok t)
    ∧ (personaCatalog.contains (lowerStr t) = false →
        PersonaFactory.create t = .error ("Unknown persona type: " ++ t))
    ∧ ((domains.contains "frontend" || patterns.contains "ui-component"
          || patterns.contains "responsive") = true →
        autoDetectPersona domains patterns complexity = "frontend")
    ∧ ((domains.contains "frontend" || patterns.contains "ui-component"
          || patterns.contains "responsive") = false →
        (domains.contains "backend" || patterns.contains "api"
          || patterns.contains "database") = true →
        autoDetectPersona domains patterns complexity = "backend")
    ∧ ((domains.contains "frontend" || patterns.contains "ui-component"
          || patterns.contains "responsive") = false →
        (domains.contains "backend" || patterns.contains "api"
          || patterns.contains "database") = false →
        (domains.contains "security" || patterns.contains "authentication"
          || patterns.contains "encryption") = true →
        autoDetectPersona domains patterns complexity = "security")
    ∧ ((domains.contains "frontend" || patterns.contains "ui-component"
          || patterns.contains "responsive") = false →
        (domains.contains "backend" || patterns.contains "api"
          || patterns.contains "database") = false →
        (domains.contains "security" || patterns.contains "authentication"
          || patterns.contains "encryption") = false →
        (domains.contains "infrastructure" || patterns.contains "deployment"
          || patterns.contains "ci-cd") = true →
        autoDetectPersona domains patterns complexity = "devops")
    ∧ ((domains.contains "frontend" || patterns.contains "ui-component"
          || patterns.contains "responsive") = false →
        (domains.contains "backend" || patterns.contains "api"
          || patterns.contains "database") = false →
        (domains.contains "security" || patterns.contains "authentication"
          || patterns.contains "encryption") = false →
        (domains.contains "infrastructure" || patterns.contains "deployment"
          || patterns.contains "ci-cd") = false →
        autoDetectPersona domains patterns complexity = "architect") := by
  refine ⟨?_, ?_, ?_, ?_, ?_, ?_, ?_⟩
  · intro h
    fin_cases h <;> rfl
  · intro h
    have h' : lowerStr t ∉ personaCatalog := by simpa using h
    simp [PersonaFactory.create, h']
  · intro h1
    simp_all [autoDetectPersona]
  · intro h1 h2
    simp_all [autoDetectPersona]
  · intro h1 h2 h3
    simp_all [autoDetectPersona]
  · intro h1 h2 h3 h4
    simp_all [autoDetectPersona]
  · intro h1 h2 h3 h4
    simp_all [autoDetectPersona]

/-- Witness for C2 at concrete inputs: an exact catalog name is returned
verbatim, an unknown name errors, backend indicators select backend, and no
indicators fall back to architect. -/
theorem viewpoint_selection_witness :
    PersonaFactory.create "backend" = .ok "backend"
    ∧ PersonaFactory.create "pm" = .error ("Unknown persona type: " ++ "pm")
    ∧ autoDetectPersona [] ["api"] 0 = "backend"
    ∧ autoDetectPersona [] [] 0 = "architect" :=
  ⟨(viewpoint_selection "backend" [] [] 0).1 (by decide),
   (viewpoint_selection "pm" [] [] 0).2.1 (by decide),
   (viewpoint_selection "" [] ["api"] 0).2.2.2.1 (by decide) (by decide),
   (viewpoint_selection "" [] [] 0).2.2.2.2.2.2
     (by decide) (by decide) (by decide) (by decide)⟩

/-- C10: persona creation lowercases the requested type before the catalog
lookup, so creation succeeds exactly when `hasType` holds, every created
persona is the one keyed by the lowercased name, and any name whose
lowercasing is in the catalog (any casing of the six names) succeeds. -/
theorem persona_lookup_case_insensitive (t : String) :
    (PersonaFactory.hasType t = true ↔ ∃ p, PersonaFactory.create t = .ok p)
    ∧ (∀ p, PersonaFactory.create t = .ok p → p = lowerStr t)
    ∧ (personaCatalog.contains (lowerStr t) = true →
        PersonaFactory.create t = .ok (lowerStr t)) := by
  by_cases hc : personaCatalog.contains (lowerStr t) = true
  · refine ⟨⟨fun _ => ⟨lowerStr t, ?_⟩, fun _ => ?_⟩, fun p hp => ?_, fun _ => ?_⟩
      <;> simp_all [PersonaFactory.create, PersonaFactory.hasType]
  · refine ⟨⟨fun h => absurd ?_ hc, fun ⟨p, hp⟩ => ?_⟩, fun p hp => ?_, fun h => absurd h hc⟩
      <;> simp_all [PersonaFactory.create, PersonaFactory.hasType]

/-- Witness for C10 at concrete casings: `Frontend` and `QA` both create the
personas of their lowercase names. -/
theorem persona_lookup_case_insensitive_witness :
    PersonaFactory.create "Frontend" = .ok "frontend"
    ∧ PersonaFactory.create "QA" = .ok "qa" :=
  ⟨((persona_lookup_case_insensitive "Frontend").2.2 (by decide)).trans
     (congrArg Except.ok (by decide)),
   ((persona_lookup_case_insensitive "QA").2.2 (by decide)).trans
     (congrArg Except.ok (by decide))⟩

/-- C9 counterexample: the word-boundary alternation of the `authentication`
pattern (`\b(auth|login|register|signin|signup|oauth|jwt)\b`) matches none of
the words of the Scenario B text, so the extracted pattern set does not
contain `authentication` as the claim states. -/
theorem scenario_b_counterexample :
    "authentication" ∉ extractPatterns scenarioBText := by decide

/-- C9 amended: on the Scenario B text the extracted patterns are exactly
`api`, `database` and `testing` (the latter via the word `integration` in the
testing alternation) — `authentication` is absent — the extracted domain is
`backend`, and the auto-detected viewpoint is `backend` for every complexity
value. -/
theorem scenario_b_amended :
    extractPatterns scenarioBText = ["api", "database", "testing"]
    ∧ extractDomains scenarioBText = ["backend"]
    ∧ ∀ complexity : ℚ,
        autoDetectPersona (extractDomains scenarioBText)
          (extractPatterns scenarioBText) complexity = "backend" :=
  ⟨by decide, by decide, fun _ => rfl⟩

/-- Folding stories into sprints preserves the concatenation of all stories,
in order. -/
lemma foldl_sprintStep_stories (stories : List Story)
    (acc : List Sprint × Sprint) :
    sprintsStories (stories.foldl sprintStep acc).1
        ++ (stories.foldl sprintStep acc).2.userStories
      = sprintsStories acc.1 ++ acc.2.userStories ++ stories := by
  induction stories generalizing acc with
  | nil => simp
  | cons st rest ih =>
    rw [List.foldl_cons, ih]
    rcases acc with ⟨sprints, cur⟩
    unfold sprintStep
    by_cases h : cur.totalPoints + st.storyPoints > 20
    · by_cases h2 : cur.userStories.length > 0
      · simp [h, h2, sprintsStories]
      · have hcur : cur.userStories = [] := by
          simpa using Nat.le_zero.mp (Nat.not_lt.mp h2)
        simp [h, h2, sprintsStories, hcur]
    · simp [h, sprintsStories]

/-- Folding stories into sprints preserves the capacity and nonemptiness
invariants when every story fits a sprint on its own. -/
lemma foldl_sprintStep_bounded (stories : List Story)
    (acc : List Sprint × Sprint)
    (hst : ∀ s ∈ stories, s.storyPoints ≤ 20)
    (hacc : (∀ sp ∈ acc.1, sumPoints sp ≤ 20 ∧ sp.userStories ≠ [])
      ∧ acc.2.totalPoints = sumPoints acc.2 ∧ acc.2.totalPoints ≤ 20) :
    (∀ sp ∈ (stories.foldl sprintStep acc).1,
        sumPoints sp ≤ 20 ∧ sp.userStories ≠ [])
    ∧ (stories.foldl sprintStep acc).2.totalPoints
        = sumPoints (stories.foldl sprintStep acc).2
    ∧ (stories.foldl sprintStep acc).2.totalPoints ≤ 20 := by
  induction stories generalizing acc with
  | nil => simpa using hacc
  | cons st rest ih =>
    rw [List.foldl_cons]
    have hp : st.storyPoints ≤ 20 := hst st (by simp)
    refine ih _ (fun s hs => hst s (by simp [hs])) ?_
    rcases acc with ⟨sprints, cur⟩
    obtain ⟨h1, h2, h3⟩ := hacc
    unfold sprintStep
    by_cases h : cur.totalPoints + st.storyPoints > 20
    · by_cases hne : cur.userStories.length > 0
      · refine ⟨?_, ?_, ?_⟩
        · intro sp hsp
          simp only [h, hne, if_true] at hsp
          rcases List.mem_append.mp hsp with hmem | hmem
          · exact h1 sp hmem
          · simp only [List.mem_singleton] at hmem
            subst hmem
            exact ⟨h2 ▸ h3, List.length_pos.mp hne⟩
        · simp [h, hne, sumPoints]
        · simpa [h, hne] using hp
      · refine ⟨?_, ?_, ?_⟩
        · intro sp hsp
          simp only [h, hne, if_true, if_false] at hsp
          exact h1 sp hsp
        · simp [h, hne, sumPoints]
        · simpa [h, hne] using hp
    · refine ⟨?_, ?_, ?_⟩
      · intro sp hsp
        simp only [h, if_false] at hsp
        exact h1 sp hsp
      · simp [h, sumPoints]
        simpa [sumPoints] using h2
      · simpa [h] using Nat.not_lt.mp h

/-- Story concatenation across the epic-level double fold. -/
lemma epicsFoldl_stories (epics : List Epic) (acc : List Sprint × Sprint) :
    sprintsStories
        ((epics.foldl (fun st epic => epic.userStories.foldl sprintStep st)
          acc).1)
        ++ ((epics.foldl (fun st epic => epic.userStories.foldl sprintStep st)
          acc).2).userStories
      = sprintsStories acc.1 ++ acc.2.userStories
          ++ ((epics.map (·.userStories)).flatten) := by
  induction epics generalizing acc with
  | nil => simp
  | cons e rest ih =>
    rw [List.foldl_cons, ih, foldl_sprintStep_stories]
    simp [List.append_assoc]

/-- Capacity/nonemptiness invariants across the epic-level double fold. -/
lemma epicsFoldl_bounded (epics : List Epic) (acc : List Sprint × Sprint)
    (hst : ∀ e ∈ epics, ∀ s ∈ e.userStories, s.storyPoints ≤ 20)
    (hacc : (∀ sp ∈ acc.1, sumPoints sp ≤ 20 ∧ sp.userStories ≠ [])
      ∧ acc.2.totalPoints = sumPoints acc.2 ∧ acc.2.totalPoints ≤ 20) :
    (∀ sp ∈ ((epics.foldl (fun st epic => epic.userStories.foldl sprintStep st)
        acc).1),
      sumPoints sp ≤ 20 ∧ sp.userStories ≠ [])
    ∧ ((epics.foldl (fun st epic => epic.userStories.foldl sprintStep st)
        acc).2).totalPoints
        = sumPoints ((epics.foldl
            (fun st epic => epic.userStories.foldl sprintStep st) acc).2)
    ∧ ((epics.foldl (fun st epic => epic.userStories.foldl sprintStep st)
        acc).2).totalPoints ≤ 20 := by
  induction epics generalizing acc with
  | nil => simpa using hacc
  | cons e rest ih =>
    rw [List.foldl_cons]
    exact ih _ (fun e' he' => hst e' (by simp [he']))
      (foldl_sprintStep_bounded e.userStories acc
        (hst e (by simp)) hacc)

/-- Order preservation of organizeSprints: the sprints concatenate back to
the full story sequence. -/
lemma organizeSprints_stories (epics : List Epic) :
    sprintsStories (organizeSprints epics)
      = (epics.map (·.userStories)).flatten := by
  unfold organizeSprints
  have h := epicsFoldl_stories epics ([], {})
  simp only [sprintsStories, List.map_nil, List.flatten_nil,
    List.nil_append] at h
  by_cases hne :
      ((epics.foldl (fun st epic => epic.userStories.foldl sprintStep st)
        (([], {}) : List Sprint × Sprint)).2).userStories.length > 0
  · simp only [hne, if_true]
    simp only [sprintsStories, List.map_append, List.flatten_append,
      List.map_cons, List.map_nil, List.flatten_cons, List.flatten_nil,
      List.append_nil]
    exact h
  · have hcur :
        ((epics.foldl (fun st epic => epic.userStories.foldl sprintStep st)
          (([], {}) : List Sprint × Sprint)).2).userStories = [] := by
      simpa using Nat.le_zero.mp (Nat.not_lt.mp hne)
    simp only [hne, if_false]
    rw [hcur, List.append_nil] at h
    exact h

/-- Capacity and nonemptiness of every sprint produced by organizeSprints. -/
lemma organizeSprints_bounded (epics : List Epic)
    (hst : ∀ e ∈ epics, ∀ s ∈ e.userStories, s.storyPoints ≤ 20) :
    ∀ sp ∈ organizeSprints epics, sumPoints sp ≤ 20 ∧ sp.userStories ≠ [] := by
  unfold organizeSprints
  have h := epicsFoldl_bounded epics ([], {}) hst
    (by refine ⟨by simp, ?_, by simp⟩; simp [sumPoints])
  obtain ⟨h1, h2, h3⟩ := h
  by_cases hne :
      ((epics.foldl (fun st epic => epic.userStories.foldl sprintStep st)
        (([], {}) : List Sprint × Sprint)).2).userStories.length > 0
  · simp only [hne, if_true]
    intro sp hsp
    rcases List.mem_append.mp hsp with hmem | hmem
    · exact h1 sp hmem
    · simp only [List.mem_singleton] at hmem
      subst hmem
      exact ⟨h2 ▸ h3, List.length_pos.mp hne⟩
  · simp only [hne, if_false]
    exact h1

/-- Story points produced by the epic conversion never exceed a sprint's
capacity (they are 3, 5 or 8). -/
lemma convertToEpics_points (r : Requirements) :
    ∀ e ∈ convertToEpics r, ∀ s ∈ e.userStories, s.storyPoints ≤ 20 := by
  intro e he s hs
  simp only [convertToEpics, List.mem_map] at he
  obtain ⟨f, _, rfl⟩ := he
  simp only [createUserStories, List.mem_singleton] at hs
  subst hs
  simp only [estimateStoryPoints]
  split_ifs <;> norm_num

/-- C5: under the agile strategy the user stories derived from the features
(one per feature, in declaration order) are packed into sprints whose
concatenation reproduces exactly the original story order, and no sprint
exceeds the story-point capacity of 20. -/
theorem sprint_packing (r : Requirements) :
    sprintsStories (organizeSprints (convertToEpics r))
      = (r.features.map createUserStories).flatten
    ∧ ∀ sp ∈ organizeSprints (convertToEpics r), sumPoints sp ≤ 20 := by
  constructor
  · rw [organizeSprints_stories]
    simp [convertToEpics, List.map_map]
    rfl
  · intro sp hsp
    exact (organizeSprints_bounded (convertToEpics r)
      (convertToEpics_points r) sp hsp).1

/-- Witness for C5 at one concrete feature: the produced single sprint holds
its story and respects the capacity. -/
theorem sprint_packing_witness :
    sumPoints
      { userStories :=
          [{ title := "User can a", description := "As a user, I want to a",
             storyPoints := 5 }],
        totalPoints := 5 } ≤ 20 :=
  (sprint_packing { features := [{ name := "a" }] }).2 _ (by decide)

/-- Phases surviving the null/empty filter have nonempty task lists. -/
lemma filterPhases_no_empty (cands : List (Option Phase)) :
    ∀ p ∈ filterPhases cands, p.tasks ≠ [] := by
  intro p hp hnil
  have h := (List.mem_filter.mp hp).2
  simp [hnil] at h

/-- Sprint phases of the agile workflow have nonempty task lists. -/
lemma agile_no_empty (r : Requirements) :
    ∀ p ∈ generateAgileWorkflow r, p.tasks ≠ [] := by
  intro p hp
  unfold generateAgileWorkflow at hp
  obtain ⟨pr, hpr, rfl⟩ := List.mem_map.mp hp
  have hsp : pr.2 ∈ organizeSprints (convertToEpics r) :=
    by
    have h := List.mem_enum_iff_getElem?.mp hpr
    obtain ⟨hlt, hEq⟩ := List.getElem?_eq_some.mp h
    exact hEq ▸ List.getElem_mem hlt
  have hne := (organizeSprints_bounded (convertToEpics r)
    (convertToEpics_points r) pr.2 hsp).2
  simpa using hne

/-- C6 counterexample: for empty requirements under the `mvp` strategy, the
synthesized workflow contains the Rapid Development phase with an empty task
list (no core features exist and no filter is applied on this path). -/
theorem empty_phase_counterexample :
    (backendGenerateWorkflow mvpCounterexampleReq "mvp").phases.any
      (fun p => p.tasks.isEmpty) = true := by decide

/-- C6 amended: under every strategy other than `mvp` the backend workflow
contains no empty-task phase (systematic builders are filtered, sprints are
nonempty), and the systematic null/empty filtering shared by all persona
classes never lets an empty-task phase through; under `mvp` the claim fails
as the counterexample shows. -/
theorem no_empty_phase_amended :
    (∀ (r : Requirements) (strategy : String), strategy ≠ "mvp" →
      ∀ p ∈ (backendGenerateWorkflow r strategy).phases, p.tasks ≠ [])
    ∧ ∀ cands : List (Option Phase), ∀ p ∈ filterPhases cands,
        p.tasks ≠ [] := by
  refine ⟨?_, filterPhases_no_empty⟩
  intro r strategy hmvp p hp
  unfold backendGenerateWorkflow at hp
  simp only at hp
  by_cases h1 : strategy = "systematic"
  · rw [if_pos h1] at hp
    exact filterPhases_no_empty _ p hp
  · rw [if_neg h1] at hp
    by_cases h2 : strategy = "agile"
    · rw [if_pos h2] at hp
      exact agile_no_empty r p hp
    · rw [if_neg h2, if_neg hmvp] at hp
      exact filterPhases_no_empty _ p hp

/-- Witness for C6 at concrete inputs: the systematic workflow of empty
requirements has no empty-task phase (checked on its first phase). -/
theorem no_empty_phase_amended_witness :
    ((backendGenerateWorkflow {} "systematic").phases.getD 0 default).tasks
      ≠ [] :=
  no_empty_phase_amended.1 {} "systematic" (by decide) _ (by decide)

/-- C7 counterexample: the minimal zero-phase workflow still receives a
nonempty business risk list from the Risk Assessor (Scope Creep and
Stakeholder Alignment are pushed unconditionally), so not every category list
is empty as the claim states. -/
theorem enrichment_empty_counterexample :
    emptyWorkflow.phases = []
    ∧ (RiskAssessment.assess emptyWorkflow).business ≠ [] :=
  ⟨rfl, by decide⟩

/-- C7 amended: on any zero-phase workflow every enrichment pass still
returns a result (the functions are total): the Dependency Analyzer returns
empty lists for all five dependency kinds and an empty critical path and
bottleneck list, while the Risk Assessor's business and resource lists are
never empty because Scope Creep, Stakeholder Alignment and Key Person
Dependency are unconditional risks; on the minimal zero-phase workflow its
technical, timeline and security lists are empty. -/
theorem enrichment_empty_amended (w : Workflow) (h : w.phases = []) :
    (DependencyAnalyzer.analyze w = ({} : DependencyOutput)
      ∧ (RiskAssessment.assess w).business ≠ []
      ∧ (RiskAssessment.assess w).resource ≠ [])
    ∧ ((RiskAssessment.assess emptyWorkflow).technical = []
      ∧ (RiskAssessment.assess emptyWorkflow).timeline = []
      ∧ (RiskAssessment.assess emptyWorkflow).security = []) := by
  refine ⟨⟨?_, ?_, ?_⟩, ?_, ?_, ?_⟩
  · simp [DependencyAnalyzer.analyze,
      DependencyAnalyzer.analyzeInternalDependencies,
      DependencyAnalyzer.analyzeExternalDependencies,
      DependencyAnalyzer.analyzeTechnicalDependencies,
      DependencyAnalyzer.analyzeTeamDependencies,
      DependencyAnalyzer.analyzeInfrastructureDependencies,
      DependencyAnalyzer.identifyCriticalPath,
      DependencyAnalyzer.identifyBottlenecks, h]
  · simp [RiskAssessment.assess, RiskAssessment.assessBusinessRisks]
  · simp [RiskAssessment.assess, RiskAssessment.assessResourceRisks,
      RiskAssessment.identifyRequiredSkills, RiskAssessment.isTeamTooSmall]
  · show RiskAssessment.assessTechnicalRisks emptyWorkflow = []
    have hperf :
        RiskAssessment.hasPerformanceRequirements emptyWorkflow = false := by
      decide
    have hcx : emptyWorkflow.metadata.complexity = 0 := rfl
    have hph : emptyWorkflow.phases = [] := rfl
    unfold RiskAssessment.assessTechnicalRisks
    norm_num [RiskAssessment.identifyNewTechnologies,
      RiskAssessment.countIntegrations, hcx, hph, hperf]
  · show RiskAssessment.assessTimelineRisks emptyWorkflow = []
    have htl :
        RiskAssessment.hasAggressiveTimeline emptyWorkflow = false := by
      decide
    unfold RiskAssessment.assessTimelineRisks
    simp [RiskAssessment.identifyCriticalDependencies,
      RiskAssessment.hasResourceConstraints, htl]
  · show RiskAssessment.assessSecurityRisks emptyWorkflow = []
    have hsec :
        RiskAssessment.hasSecurityRequirements emptyWorkflow = false := by
      decide
    have hdata :
        RiskAssessment.handlessensitiveData emptyWorkflow = false := by
      decide
    unfold RiskAssessment.assessSecurityRisks
    simp [RiskAssessment.identifyThirdPartyServices, hsec, hdata]

/-- Witness for C7 at the concrete minimal workflow: all dependency views
empty, business and resource risks nonempty, and the technical, timeline and
security risk lists empty. -/
theorem enrichment_empty_amended_witness :
    (DependencyAnalyzer.analyze emptyWorkflow = ({} : DependencyOutput)
      ∧ (RiskAssessment.assess emptyWorkflow).business ≠ []
      ∧ (RiskAssessment.assess emptyWorkflow).resource ≠ [])
    ∧ ((RiskAssessment.assess emptyWorkflow).technical = []
      ∧ (RiskAssessment.assess emptyWorkflow).timeline = []
      ∧ (RiskAssessment.assess emptyWorkflow).security = []) :=
  enrichment_empty_amended emptyWorkflow rfl

/-- Score bounds of the requirements gate. -/
lemma validateRequirements_bounds (w : Workflow) :
    0 ≤ (QualityGates.validateRequirements w).score
    ∧ (QualityGates.validateRequirements w).score ≤ 1 := by
  unfold QualityGates.validateRequirements
  exact ⟨le_max_left _ _,
    by apply max_le (by norm_num); split_ifs <;> norm_num⟩

/-- Score bounds of the architecture gate. -/
lemma reviewArchitecture_bounds (w : Workflow) :
    0 ≤ (QualityGates.reviewArchitecture w).score
    ∧ (QualityGates.reviewArchitecture w).score ≤ 1 := by
  unfold QualityGates.reviewArchitecture
  exact ⟨le_max_left _ _,
    by apply max_le (by norm_num); split_ifs <;> norm_num⟩

/-- Score bounds of the security gate. -/
lemma assessSecurity_bounds (w : Workflow) :
    0 ≤ (QualityGates.assessSecurity w).score
    ∧ (QualityGates.assessSecurity w).score ≤ 1 := by
  unfold QualityGates.assessSecurity
  exact ⟨le_max_left _ _,
    by apply max_le (by norm_num); split_ifs <;> norm_num⟩

/-- Score bounds of the performance gate. -/
lemma validatePerformance_bounds (w : Workflow) :
    0 ≤ (QualityGates.validatePerformance w).score
    ∧ (QualityGates.validatePerformance w).score ≤ 1 := by
  unfold QualityGates.validatePerformance
  exact ⟨le_max_left _ _,
    by apply max_le (by norm_num); split_ifs <;> norm_num⟩

/-- Score bounds of the testing gate. -/
lemma validateTesting_bounds (w : Workflow) :
    0 ≤ (QualityGates.validateTesting w).score
    ∧ (QualityGates.validateTesting w).score ≤ 1 := by
  unfold QualityGates.validateTesting
  exact ⟨le_max_left _ _,
    by apply max_le (by norm_num); split_ifs <;> norm_num⟩

/-- Score bounds of the documentation gate. -/
lemma reviewDocumentation_bounds (w : Workflow) :
    0 ≤ (QualityGates.reviewDocumentation w).score
    ∧ (QualityGates.reviewDocumentation w).score ≤ 1 := by
  unfold QualityGates.reviewDocumentation
  exact ⟨le_max_left _ _,
    by apply max_le (by norm_num); split_ifs <;> norm_num⟩

/-- Score bounds of the risk gate. -/
lemma assessRisks_bounds (w : Workflow) :
    0 ≤ (QualityGates.assessRisks w).score
    ∧ (QualityGates.assessRisks w).score ≤ 1 := by
  unfold QualityGates.assessRisks
  exact ⟨le_max_left _ _,
    by apply max_le (by norm_num); split_ifs <;> norm_num⟩

/-- Score bounds of every dispatched gate. -/
lemma runGate_bounds (gateName : String) (w : Workflow) :
    0 ≤ (QualityGates.runGate gateName w).score
    ∧ (QualityGates.runGate gateName w).score ≤ 1 := by
  unfold QualityGates.runGate
  split_ifs
  · exact validateRequirements_bounds w
  · exact reviewArchitecture_bounds w
  · exact assessSecurity_bounds w
  · exact validatePerformance_bounds w
  · exact validateTesting_bounds w
  · exact reviewDocumentation_bounds w
  · exact assessRisks_bounds w
  · norm_num

/-- Total weight of the validation entries. -/
lemma validate_weight_sum (w : Workflow) :
    (((QualityGates.validate w).gates).map (fun e => e.weight)).sum = 1 := by
  simp [QualityGates.validate, QualityGates.gatesCatalog]
  norm_num

/-- Low-scoring entries of any gate list are reported as blockers. -/
lemma mem_blockers_of_low (gates : List GateEntry) (e : GateEntry)
    (he : e ∈ gates) (hs : e.score < 0.5) :
    e.name ∈ (QualityGates.identifyBlockers gates).map (·.gate) := by
  unfold QualityGates.identifyBlockers
  exact List.mem_map.mpr
    ⟨{ gate := e.name, issues := e.issues, severity := "critical" },
     List.mem_map.mpr ⟨e, List.mem_filter.mpr ⟨he, by simpa using hs⟩, rfl⟩,
     rfl⟩

/-- C8: the validator runs exactly seven gates whose weights sum to one; for
every workflow each gate entry scores within [0,1], the overall score is the
weighted average of the gate scores, the workflow passes exactly when the
overall score reaches 0.8, and every gate scoring below 0.5 appears among the
blockers. -/
theorem quality_gates_weighted (w : Workflow) (e : GateEntry)
    (he : e ∈ (QualityGates.validate w).gates) :
    QualityGates.gatesCatalog.length = 7
    ∧ (QualityGates.gatesCatalog.map (fun g => g.2)).sum = 1
    ∧ (0 ≤ e.score ∧ e.score ≤ 1)
    ∧ (QualityGates.validate w).overall.score
        = (((QualityGates.validate w).gates).map
            (fun g => g.score * g.weight)).sum
          / (((QualityGates.validate w).gates).map (fun g => g.weight)).sum
    ∧ ((QualityGates.validate w).overall.passed = true
        ↔ (QualityGates.validate w).overall.score ≥ 0.8)
    ∧ (e.score < 0.5 →
        e.name ∈ ((QualityGates.validate w).blockers.map (·.gate))) := by
  have hgates : (QualityGates.validate w).gates
      = QualityGates.gatesCatalog.map fun g =>
          ({ name := g.1, passed := (QualityGates.runGate g.1 w).passed,
             score := (QualityGates.runGate g.1 w).score,
             issues := (QualityGates.runGate g.1 w).issues,
             recommendations := (QualityGates.runGate g.1 w).recommendations,
             weight := g.2 } : GateEntry) := rfl
  refine ⟨rfl, by norm_num [QualityGates.gatesCatalog], ?_, ?_, ?_, ?_⟩
  · rw [hgates] at he
    obtain ⟨g, _, rfl⟩ := List.mem_map.mp he
    exact runGate_bounds g.1 w
  · have hw := validate_weight_sum w
    show QualityGates.calculateOverallScore ((QualityGates.validate w).gates)
      = _
    unfold QualityGates.calculateOverallScore
    rw [hw, if_pos (by norm_num)]
  · show decide ((QualityGates.validate w).overall.score
        ≥ QualityGates.passingScore) = true ↔ _
    rw [decide_eq_true_iff]
    unfold QualityGates.passingScore
    rfl
  · intro hs
    exact mem_blockers_of_low _ e he hs

/-- Witness for C8 at the minimal workflow: its first gate entry (the
Requirements Validation gate) scores 0.4, below the blocker threshold, and is
reported as a blocker. -/
theorem quality_gates_weighted_witness :
    ((QualityGates.validate emptyWorkflow).gates.getD 0 default).score < 0.5
    ∧ ((QualityGates.validate emptyWorkflow).gates.getD 0 default).name
        ∈ ((QualityGates.validate emptyWorkflow).blockers.map (·.gate)) := by
  have hne : (QualityGates.validate emptyWorkflow).gates ≠ [] := by
    simp [QualityGates.validate, QualityGates.gatesCatalog]
  have he : (QualityGates.validate emptyWorkflow).gates.getD 0 default
      ∈ (QualityGates.validate emptyWorkflow).gates := by
    cases h : (QualityGates.validate emptyWorkflow).gates with
    | nil => exact absurd h hne
    | cons a l => simp [h]
  have hscore : ((QualityGates.validate emptyWorkflow).gates.getD 0
      default).score = 2/5 := by
    show (QualityGates.validateRequirements emptyWorkflow).score = 2/5
    simp [QualityGates.validateRequirements, emptyWorkflow]
    norm_num
  have hs : ((QualityGates.validate emptyWorkflow).gates.getD 0
      default).score < 0.5 := by
    rw [hscore]; norm_num
  exact ⟨hs,
    (quality_gates_weighted emptyWorkflow _ he).2.2.2.2.2 hs⟩

end WorkflowPipeline
